import Mathlib

/-!
Verification of the PlexDownloader download lifecycle manager.

This file gives a shallow embedding of the download service
(`DownloadService` in the service module) and of the persistence layer
(`src/database/operations.ts` and `src/database/schema.ts`), and proves
properties of the embedded operations.

Modelling conventions:
* The SQLite `downloads` and `servers` tables are modelled as lists of
  records inside a `SysState`; a SQL `UPDATE ... WHERE id = ?` is a map
  over the list touching the rows whose `id` matches.
* Asynchronous external effects (the expo DownloadResumable transport,
  `pauseAsync`, `downloadAsync`) are modelled by passing their observed
  outcome as an explicit argument to the function that awaits them.
* `Date.now()` is modelled by the `now` field of the state.
* JSON (de)serialization of the opaque checkpoint and metadata blobs is
  modelled by concrete total encode functions and concrete
  `Option`-valued decode functions; the service treats both blobs as
  opaque, so only parse success/failure and the recovered fields matter.
-/

namespace PlexDownloader

/-- ASCII lowercasing of one character, modelling JS `toLowerCase` on the
ASCII strings the service compares (the retry signature literals). -/
def lowerChar (c : Char) : Char :=
  if 'A' ≤ c ∧ c ≤ 'Z' then Char.ofNat (c.toNat + 32) else c

/-- ASCII lowercasing of a string. -/
def strToLower (s : String) : String :=
  String.mk (s.data.map lowerChar)

/-- Does the second character list start with the first one? -/
def charsStartWith : List Char → List Char → Bool
  | [], _ => true
  | _ :: _, [] => false
  | a :: as, b :: bs => a = b && charsStartWith as bs

/-- Does the second character list contain the first as a contiguous
sublist?  Used to model JS `String.prototype.includes`. -/
def charsContains (pat : List Char) : List Char → Bool
  | [] => charsStartWith pat []
  | c :: cs => charsStartWith pat (c :: cs) || charsContains pat cs

/-- Model of JS `s.includes(pat)`. -/
def jsIncludes (s pat : String) : Bool :=
  charsContains pat.data s.data

/-- Split a character list on a separator character, modelling JS
`String.prototype.split` with a one-character separator. -/
def splitChars (sep : Char) : List Char → List (List Char)
  | [] => [[]]
  | c :: cs =>
    let r := splitChars sep cs
    if c = sep then [] :: r
    else
      match r with
      | [] => [[c]]
      | h :: t => (c :: h) :: t

/-- Decimal digit value of a character, if it is a digit. -/
def digitVal (c : Char) : Option Nat :=
  if '0' ≤ c ∧ c ≤ '9' then some (c.toNat - '0'.toNat) else none

/-- Accumulating decimal parse over a character list. -/
def natFromCharsAux : List Char → Nat → Option Nat
  | [], acc => some acc
  | c :: cs, acc =>
    match digitVal c with
    | some d => natFromCharsAux cs (acc * 10 + d)
    | none => none

/-- Parse a nonempty all-digit character list as a natural number. -/
def natFromChars (l : List Char) : Option Nat :=
  match l with
  | [] => none
  | _ => natFromCharsAux l 0

/-- Hexadecimal digit character for a value below 16. -/
def hexDigit (n : Nat) : Char :=
  List.getD "0123456789ABCDEF".data n 'X'

/-- Characters left unescaped by JS `encodeURIComponent`.  The model drops
the apostrophe from the unreserved set; no verified property inspects the
generated URL text. -/
def allowedUriChar (c : Char) : Bool :=
  c.isAlphanum || ['-', '_', '.', '!', '~', '*', '(', ')'].contains c

/-- Percent-encoding of one character code, modelling JS
`encodeURIComponent` on the ASCII file names the service encodes. -/
def percentEncodeChar (c : Char) : List Char :=
  ['%', hexDigit (c.toNat / 16 % 16), hexDigit (c.toNat % 16)]

/-- Model of JS `encodeURIComponent`. -/
def encodeURIComponent (s : String) : String :=
  String.mk (s.data.foldr
    (fun c acc => if allowedUriChar c then c :: acc else percentEncodeChar c ++ acc) [])

/-- Model of `file.split('/').pop() || 'media.mp4'` from the service:
the last `/`-separated component of the remote path, with the fallback
used when the component is empty (JS falsy). -/
def jsSplitPop (s : String) : String :=
  match (splitChars '/' s.data).reverse with
  | [] => "media.mp4"
  | last :: _ => if last = [] then "media.mp4" else String.mk last

/-- Model of the TS idiom `errorMessage || null` used by
`updateDownloadStatus`: an empty string is falsy and stored as NULL. -/
def jsOrNull : Option String → Option String
  | some "" => none
  | o => o

/-! ## Data model (schema.ts) -/

/-- Download status enum from `schema.ts` (`DownloadStatus`). -/
inductive DownloadStatus
  | pending
  | downloading
  | paused
  | completed
  | failed
deriving DecidableEq

/-- Row of the `downloads` table (`DownloadRecord` in `schema.ts`). -/
structure DownloadRecord where
  id : Nat
  media_rating_key : String
  server_identifier : String
  local_file_path : String
  cached_metadata_json : String
  local_thumbnail_path : Option String
  download_status : DownloadStatus
  created_at : Nat
  updated_at : Nat
  file_size : Option Nat
  downloaded_bytes : Nat
  error_message : Option String
  quality_profile : Option String
  resume_data : Option String
deriving DecidableEq

/-- Row of the `servers` table (`ServerRecord` in `schema.ts`). -/
structure ServerRecord where
  server_identifier : String
  name : String
  access_token : String
  base_url : String
  owned : Nat
  last_connected : Option Nat
  cached_metadata_json : Option String
deriving DecidableEq

/-- One filesystem entry: a file (or directory) named `fileName` living in
directory `dirName`; its URI is `dirName ++ fileName`. -/
structure FsFile where
  dirName : String
  fileName : String
  size : Nat
  isDirectory : Bool
deriving DecidableEq

/-- The device filesystem visible to the app: document-directory entries
plus the set of directories created so far. -/
structure Fs where
  files : List FsFile
  dirs : List String
deriving DecidableEq

/-- Serializable pause state of the transfer adapter
(expo `DownloadPauseState`); the service reads only the `options` and
`resumeData` fields, so only those are modelled. -/
structure PauseState where
  options : String
  resumeData : Option String
deriving DecidableEq

/-- Constructor data of an expo `FileSystem.DownloadResumable` handle as
the service builds one: source URL, destination file, request options and
the optional resume token. -/
structure Resumable where
  url : String
  fileUri : String
  options : String
  resumeData : Option String
deriving DecidableEq

/-- Model of `resumable.savable()`: the serializable snapshot the adapter
would report for this handle. -/
def Resumable.savable (r : Resumable) : PauseState :=
  { options := r.options, resumeData := r.resumeData }

/-- Entry of the in-memory `activeDownloads` map (`ActiveDownload` in the
service module). -/
structure ActiveDownload where
  downloadId : Nat
  resumable : Resumable
  retryCount : Nat
  lastProgressTime : Nat
  lastProgressBytes : Nat
deriving DecidableEq

/-- Whole-system state: the two SQLite tables, the filesystem, the
module-level `activeDownloads` map and `hasInitialized` flag, the
AUTOINCREMENT row counter, and the current clock. -/
structure SysState where
  downloads : List DownloadRecord
  servers : List ServerRecord
  fs : Fs
  activeDownloads : List ActiveDownload
  nextRowId : Nat
  now : Nat
  hasInitialized : Bool
deriving DecidableEq

/-! ## Store operations (operations.ts) -/

/-- SQL `UPDATE downloads SET ... WHERE id = ?`: apply `f` to every row
whose `id` matches. -/
def updateWhere (st : SysState) (id : Nat) (f : DownloadRecord → DownloadRecord) : SysState :=
  { st with downloads := st.downloads.map (fun d => if d.id = id then f d else d) }

/-- Embeds `updateDownloadStatus` from operations.ts: sets status,
`error_message` (with the `errorMessage || null` coercion) and
`updated_at`. -/
def updateDownloadStatus (st : SysState) (id : Nat) (status : DownloadStatus)
    (errorMessage : Option String) : SysState :=
  updateWhere st id (fun d =>
    { d with download_status := status, error_message := jsOrNull errorMessage,
             updated_at := st.now })

/-- Embeds `updateDownloadProgress` from operations.ts: sets
`downloaded_bytes`, optionally `file_size`, and `updated_at` (both SQL
branches set `updated_at`). -/
def updateDownloadProgress (st : SysState) (id : Nat) (downloadedBytes : Nat)
    (fileSize : Option Nat) : SysState :=
  match fileSize with
  | some fs =>
    updateWhere st id (fun d =>
      { d with downloaded_bytes := downloadedBytes, file_size := some fs,
               updated_at := st.now })
  | none =>
    updateWhere st id (fun d =>
      { d with downloaded_bytes := downloadedBytes, updated_at := st.now })

/-- Embeds `updateDownloadThumbnail` from operations.ts: the SQL statement
sets only `local_thumbnail_path` (no `updated_at`). -/
def updateDownloadThumbnail (st : SysState) (id : Nat) (localThumbnailPath : String) : SysState :=
  updateWhere st id (fun d => { d with local_thumbnail_path := some localThumbnailPath })

/-- Embeds `updateDownloadResumeData` from operations.ts: the SQL
statement sets only `resume_data` (no `updated_at`). -/
def updateDownloadResumeData (st : SysState) (id : Nat) (resumeData : Option String) : SysState :=
  updateWhere st id (fun d => { d with resume_data := resumeData })

/-- Embeds `getDownload`: `SELECT * FROM downloads WHERE id = ?`
(first match). -/
def getDownload (st : SysState) (id : Nat) : Option DownloadRecord :=
  st.downloads.find? (fun d => d.id == id)

/-- Embeds `getDownloadByMediaKey`: first row matching both the media
rating key and the server identifier. -/
def getDownloadByMediaKey (st : SysState) (mediaRatingKey serverIdentifier : String) :
    Option DownloadRecord :=
  st.downloads.find? (fun d =>
    d.media_rating_key == mediaRatingKey && d.server_identifier == serverIdentifier)

/-- Embeds `getAllDownloads`.  The `ORDER BY created_at DESC` clause is
not modelled: no verified property depends on row order. -/
def getAllDownloads (st : SysState) : List DownloadRecord :=
  st.downloads

/-- Embeds `getDownloadsByStatus` for a set of statuses
(`WHERE download_status IN (...)`); ordering again not modelled. -/
def getDownloadsByStatus (st : SysState) (statuses : List DownloadStatus) :
    List DownloadRecord :=
  st.downloads.filter (fun d => statuses.any (fun s => d.download_status == s))

/-- Embeds `getServer`: `SELECT * FROM servers WHERE server_identifier = ?`. -/
def getServer (st : SysState) (serverIdentifier : String) : Option ServerRecord :=
  st.servers.find? (fun s => s.server_identifier == serverIdentifier)

/-- Embeds `addDownload`: INSERT of a fresh `pending` row with
`created_at = updated_at = now`, NULL optional columns and
`downloaded_bytes = 0`; returns the AUTOINCREMENT row id. -/
def addDownload (st : SysState) (mediaRatingKey serverIdentifier localFilePath
    metadataJson : String) (localThumbnailPath : Option String) : Nat × SysState :=
  let newId := st.nextRowId
  let newRecord : DownloadRecord :=
    { id := newId, media_rating_key := mediaRatingKey,
      server_identifier := serverIdentifier, local_file_path := localFilePath,
      cached_metadata_json := metadataJson,
      local_thumbnail_path := localThumbnailPath,
      download_status := DownloadStatus.pending,
      created_at := st.now, updated_at := st.now,
      file_size := none, downloaded_bytes := 0, error_message := none,
      quality_profile := none, resume_data := none }
  (newId, { st with downloads := st.downloads ++ [newRecord], nextRowId := newId + 1 })

/-- Model of `FileSystem.deleteAsync(uri, idempotent)`: drop any entry at
that URI. -/
def deleteFsUri (fs : Fs) (uri : String) : Fs :=
  { fs with files := fs.files.filter (fun f => ¬ (f.dirName ++ f.fileName = uri)) }

/-- Embeds `deleteDownload` from operations.ts: look up the row, delete
its backing file and thumbnail (best effort), then DELETE the row. -/
def deleteDownload (st : SysState) (id : Nat) : SysState :=
  let st1 :=
    match getDownload st id with
    | some download =>
      let fs1 := deleteFsUri st.fs download.local_file_path
      let fs2 :=
        match download.local_thumbnail_path with
        | some t => deleteFsUri fs1 t
        | none => fs1
      { st with fs := fs2 }
    | none => st
  { st1 with downloads := st1.downloads.filter (fun d => ¬ (d.id = id)) }

/-- Model of `FileSystem.getInfoAsync`: the entry at a URI, if any
(`none` models `exists: false`). -/
def getInfoAsync (fs : Fs) (uri : String) : Option FsFile :=
  fs.files.find? (fun f => f.dirName ++ f.fileName == uri)

/-- Model of `FileSystem.readDirectoryAsync`: names of the entries whose
directory is `dir`. -/
def readDirectoryAsync (fs : Fs) (dir : String) : List String :=
  (fs.files.filter (fun f => f.dirName == dir)).map (fun f => f.fileName)

/-- Model of `FileSystem.documentDirectory`, a device-specific constant. -/
def documentDirectory : String := "file:///data/"

/-- The downloads directory used by the service and by
`findOrphanedFiles`. -/
def downloadsDirPath : String := documentDirectory ++ "downloads/"

/-- Orphan report entry (`OrphanedFile` in operations.ts). -/
structure OrphanedFile where
  uri : String
  size : Nat
deriving DecidableEq

/-- Embeds `findOrphanedFiles` from operations.ts: list the downloads
directory, collect every entry that is not the `local_file_path` of any
row and is an existing non-directory file, reporting its size.  The
imperative accumulation loop is embedded as a `filterMap`; the function
performs only reads, so the state is returned unchanged. -/
def findOrphanedFiles (st : SysState) : List OrphanedFile × SysState :=
  let dirContents := readDirectoryAsync st.fs downloadsDirPath
  let knownFilePaths := (getAllDownloads st).map (fun d => d.local_file_path)
  let orphans := dirContents.filterMap (fun fileName =>
    let fileUri := downloadsDirPath ++ fileName
    if knownFilePaths.contains fileUri then none
    else
      match getInfoAsync st.fs fileUri with
      | some fileInfo =>
        if ¬ fileInfo.isDirectory then some { uri := fileUri, size := fileInfo.size }
        else none
      | none => none)
  (orphans, st)

/-! ## Media metadata and checkpoint blobs -/

/-- Metadata snapshot of a movie or episode as the service consumes it:
the identifying key, titles and indices used for filename generation, and
the flattened `media.Media[0].Part[0]` fields (`partId`, `partFile`) plus
`updatedAt` used for URL reconstruction.  The JS `type` discriminant is
the string field `mediaType`. -/
structure PlexMedia where
  ratingKey : String
  title : String
  mediaType : String
  grandparentTitle : String
  parentIndex : Nat
  index : Nat
  thumb : Option String
  updatedAt : Nat
  partId : Nat
  partFile : String
deriving DecidableEq

/-- Model of `JSON.stringify(media)` producing the opaque
`cached_metadata_json` blob; the service never inspects the blob text. -/
def serializeMedia (m : PlexMedia) : String :=
  "PM|" ++ m.ratingKey ++ "|" ++ m.title ++ "|" ++ m.mediaType ++ "|" ++
  m.grandparentTitle ++ "|" ++ toString m.parentIndex ++ "|" ++ toString m.index ++ "|" ++
  (match m.thumb with
   | some t => "T" ++ t
   | none => "N") ++ "|" ++
  toString m.updatedAt ++ "|" ++ toString m.partId ++ "|" ++ m.partFile

/-- Model of `JSON.parse` applied to the metadata blob (line
`JSON.parse(download.cached_metadata_json)` of the service); `none`
models a thrown parse error. -/
def parseMedia (s : String) : Option PlexMedia :=
  match splitChars '|' s.data with
  | [tag, rk, title, ty, gpt, pidx, idx, thumb, upd, pid, pfile] =>
    if tag = "PM".data then
      match natFromChars pidx, natFromChars idx, natFromChars upd, natFromChars pid with
      | some a, some b, some c, some d =>
        some { ratingKey := String.mk rk, title := String.mk title,
               mediaType := String.mk ty, grandparentTitle := String.mk gpt,
               parentIndex := a, index := b,
               thumb :=
                 (match thumb with
                  | 'T' :: rest => some (String.mk rest)
                  | _ => none),
               updatedAt := c, partId := d, partFile := String.mk pfile }
      | _, _, _, _ => none
    else none
  | _ => none

/-- Model of `JSON.stringify` applied to an adapter pause state. -/
def serializePauseState (ps : PauseState) : String :=
  "PS:" ++ ps.options ++ ":" ++
  (match ps.resumeData with
   | some r => "R" ++ r
   | none => "N")

/-- Model of `JSON.parse` applied to the stored `resume_data` checkpoint
blob; `none` models a thrown parse error (checkpoint corruption). -/
def parsePauseState (s : String) : Option PauseState :=
  match splitChars ':' s.data with
  | [tag, opts, rd] =>
    if tag = "PS".data then
      match rd with
      | 'R' :: rest => some { options := String.mk opts, resumeData := some (String.mk rest) }
      | ['N'] => some { options := String.mk opts, resumeData := none }
      | _ => none
    else none
  | _ => none

/-! ## Download service (DownloadService) -/

/-- Retry cap from the service module. -/
def MAX_RETRY_ATTEMPTS : Nat := 3

/-- Backoff base delay (milliseconds) from the service module. -/
def RETRY_DELAY_BASE_MS : Nat := 2000

/-- Is a download id present in the in-memory `activeDownloads` map? -/
def activeHas (st : SysState) (id : Nat) : Bool :=
  st.activeDownloads.any (fun a => a.downloadId == id)

/-- Model of `activeDownloads.delete(id)`. -/
def detachActive (st : SysState) (id : Nat) : SysState :=
  { st with activeDownloads := st.activeDownloads.filter (fun a => ¬ (a.downloadId = id)) }

/-- Embeds the `sanitize` helper inside `generateFileName`: replace every
character outside `[a-zA-Z0-9.\-_]` by an underscore, collapse runs of
underscores, strip one leading and one trailing underscore, lowercase,
and cap at 100 characters. -/
def collapseUnderscores : List Char → List Char
  | [] => []
  | [c] => [c]
  | a :: b :: rest =>
    if a = '_' ∧ b = '_' then collapseUnderscores (b :: rest)
    else a :: collapseUnderscores (b :: rest)

/-- Drop a single leading underscore (the `^_` alternative of the
`/^_|_$/g` regex). -/
def dropOneLeadingUnderscore : List Char → List Char
  | '_' :: rest => rest
  | l => l

/-- The `sanitize` string pipeline of `generateFileName`. -/
def sanitizeName (s : String) : String :=
  let step1 := s.data.map (fun c =>
    if c.isAlphanum ∨ c = '.' ∨ c = '-' ∨ c = '_' then c else '_')
  let step2 := collapseUnderscores step1
  let step3 := dropOneLeadingUnderscore step2
  let step4 := (dropOneLeadingUnderscore step3.reverse).reverse
  String.mk ((step4.map lowerChar).take 100)

/-- Embeds `generateFileName`: sanitized title plus a timestamp
(`Date.now()`, the state clock) and the `.mp4` suffix, switching on the
media `type` discriminant. -/
def generateFileName (media : PlexMedia) (now : Nat) : String :=
  if media.mediaType = "movie" then
    sanitizeName media.title ++ "_" ++ toString now ++ ".mp4"
  else if media.mediaType = "episode" then
    sanitizeName media.grandparentTitle ++ "_s" ++ toString media.parentIndex ++ "e" ++
      toString media.index ++ "_" ++ toString now ++ ".mp4"
  else "media_" ++ toString now ++ ".mp4"

/-- Embeds `ensureDirectoryExists`: create the directory if absent
(idempotent). -/
def ensureDirectoryExists (st : SysState) (name : String) : SysState :=
  let dir := documentDirectory ++ name ++ "/"
  if st.fs.dirs.contains dir then st
  else { st with fs := { st.fs with dirs := st.fs.dirs ++ [dir] } }

/-- Embeds `cancelAndDeleteDownload`: drop the id from the in-memory map
(the best-effort adapter `pauseAsync`, whose outcome is discarded and
whose errors are swallowed, has no modelled effect) and delete the
record, cascading to its files. -/
def cancelAndDeleteDownload (st : SysState) (downloadId : Nat) : SysState :=
  deleteDownload (detachActive st downloadId) downloadId

/-- The record-creation tail of `startDownload`: generate the destination
path, ensure the downloads directory, INSERT the fresh `pending` row and
return its id.  The un-awaited `downloadThumbnail` and `startNewDownload`
tasks fired after this point are separate asynchronous steps outside this
synchronous portion. -/
def startDownloadCreate (st : SysState) (serverIdentifier : String) (media : PlexMedia) :
    Except String Nat × SysState :=
  let fileName := generateFileName media st.now
  let localPath := documentDirectory ++ "downloads/" ++ fileName
  let st1 := ensureDirectoryExists st "downloads"
  let r := addDownload st1 media.ratingKey serverIdentifier localPath
    (serializeMedia media) none
  (Except.ok r.1, r.2)

/-- Embeds `startDownload`: reject when a non-failed record for the
`(mediaKey, serverId)` pair exists, replace a failed one, otherwise
create the fresh record.  A thrown error leaves the state unchanged. -/
def startDownload (st : SysState) (serverIdentifier : String) (media : PlexMedia) :
    Except String Nat × SysState :=
  match getDownloadByMediaKey st media.ratingKey serverIdentifier with
  | some existing =>
    if existing.download_status = DownloadStatus.failed then
      startDownloadCreate (cancelAndDeleteDownload st existing.id) serverIdentifier media
    else (Except.error "This item is already in the queue.", st)
  | none => startDownloadCreate st serverIdentifier media

/-- Embeds `pauseDownload`.  The outcome of the awaited adapter
`pauseAsync` call is the explicit `pauseOutcome` argument; the TS
function catches every adapter error, so the embedding is total (never
throws). -/
def pauseDownload (st : SysState) (downloadId : Nat)
    (pauseOutcome : Except String PauseState) : SysState :=
  match st.activeDownloads.find? (fun a => a.downloadId == downloadId) with
  | none => updateDownloadStatus st downloadId DownloadStatus.paused none
  | some _ =>
    match pauseOutcome with
    | Except.ok savableState =>
      let st1 := detachActive st downloadId
      let st2 := updateDownloadResumeData st1 downloadId
        (some (serializePauseState savableState))
      updateDownloadStatus st2 downloadId DownloadStatus.paused none
    | Except.error _ =>
      updateDownloadStatus st downloadId DownloadStatus.failed (some "Failed to pause")

/-- URL reconstruction shared by `resumeDownload` and
`getDownloadUrlForMedia`:
`baseUrl/library/parts/partId/updatedAt/encodedName?X-Plex-Token=token`. -/
def buildDownloadUrl (server : ServerRecord) (media : PlexMedia) : String :=
  let remoteFileName := jsSplitPop media.partFile
  server.base_url ++ "/library/parts/" ++ toString media.partId ++ "/" ++
    toString media.updatedAt ++ "/" ++ encodeURIComponent remoteFileName ++
    "?X-Plex-Token=" ++ server.access_token

/-- Embeds `getDownloadUrlForMedia`; `none` models the JSON parse throw on
a corrupt metadata blob. -/
def getDownloadUrlForMedia (download : DownloadRecord) (server : ServerRecord) :
    Option String :=
  (parseMedia download.cached_metadata_json).map (buildDownloadUrl server)

/-- Embeds `createResumableForDownload`: a fresh adapter handle (begin
semantics — empty options, no resume token) at the record's destination
path. -/
def createResumableForDownload (download : DownloadRecord) (server : ServerRecord) :
    Option Resumable :=
  (getDownloadUrlForMedia download server).map (fun url =>
    { url := url, fileUri := download.local_file_path, options := "", resumeData := none })

/-- Embeds the synchronous portion of `resumeDownload`, up to attaching
the reconstructed handle to the in-memory map (the un-awaited
`executeDownload` task is the separate `executeDownload` step).  The
first component is the promise outcome observed by the caller. -/
def resumeDownload (st : SysState) (downloadId : Nat) : Except String Unit × SysState :=
  if activeHas st downloadId then (Except.ok (), st)
  else
    match getDownload st downloadId with
    | none => (Except.ok (), st)
    | some download =>
      if download.download_status = DownloadStatus.completed then (Except.ok (), st)
      else
        match getServer st download.server_identifier with
        | none =>
          (Except.error ("Server " ++ download.server_identifier ++ " not found for download."),
           updateDownloadStatus st downloadId DownloadStatus.failed
             (some "Server no longer available"))
        | some server =>
          match parseMedia download.cached_metadata_json with
          | none => (Except.error "Unexpected token in JSON", st)
          | some media =>
            let newDownloadUrl := buildDownloadUrl server media
            let resumableOpt : Option Resumable :=
              match download.resume_data with
              | some rd =>
                match parsePauseState rd with
                | some pauseState =>
                  some { url := newDownloadUrl, fileUri := download.local_file_path,
                         options := pauseState.options,
                         resumeData := pauseState.resumeData }
                | none => createResumableForDownload download server
              | none => createResumableForDownload download server
            match resumableOpt with
            | none => (Except.error "Unexpected token in JSON", st)
            | some resumable =>
              let ad : ActiveDownload :=
                { downloadId := downloadId, resumable := resumable, retryCount := 0,
                  lastProgressTime := st.now,
                  lastProgressBytes := download.downloaded_bytes }
              (Except.ok (), { st with activeDownloads := st.activeDownloads ++ [ad] })

/-- Embeds `shouldRetryDownload`: case-insensitive signature match
against the transient-error list. -/
def retryableErrors : List String :=
  ["timeout", "network", "ECONNRESET", "ECONNREFUSED", "socket hang up"]

/-- Errors retried automatically (`shouldRetryDownload`). -/
def shouldRetryDownload (errorMessage : String) : Bool :=
  retryableErrors.any (fun e => jsIncludes (strToLower errorMessage) (strToLower e))

/-- Observable outcome of one `executeDownload` run: completion, a
scheduled backoff retry (`setTimeout` delay recorded), detachment with a
paused or failed record, or the swallowed error of an already-detached
download. -/
inductive ExecResult
  | completedOk
  | ignoredAfterDetach
  | retryScheduled (downloadId delay : Nat)
  | detachedPaused
  | detachedFailed
deriving DecidableEq

/-- Embeds `retryDownload`: bump the shared `retryCount`, mark the row
`paused` with the retrying message, and schedule re-execution after
`RETRY_DELAY_BASE_MS * 2 ^ (retryCount - 1)`. -/
def retryDownload (st : SysState) (activeDownload : ActiveDownload)
    (errorMessage : String) : SysState × ExecResult :=
  let newRetryCount := activeDownload.retryCount + 1
  let delay := RETRY_DELAY_BASE_MS * 2 ^ (newRetryCount - 1)
  let st1 := updateDownloadStatus st activeDownload.downloadId DownloadStatus.paused
    (some ("Retrying after error: " ++ errorMessage))
  let st2 := { st1 with
    activeDownloads := st1.activeDownloads.map (fun a =>
      if a.downloadId = activeDownload.downloadId then { a with retryCount := newRetryCount }
      else a) }
  (st2, ExecResult.retryScheduled activeDownload.downloadId delay)

/-- Embeds the `catch` block of `executeDownload`: swallow the error of a
detached download, otherwise retry transient errors below the cap,
otherwise degrade to `paused` (stream truncation / `network` messages,
checkpoint persisted) or `failed`, and detach. -/
def executeDownloadCatch (st : SysState) (activeDownload : ActiveDownload)
    (errorMessage : String) : SysState × ExecResult :=
  if ¬ activeHas st activeDownload.downloadId then (st, ExecResult.ignoredAfterDetach)
  else if shouldRetryDownload errorMessage ∧
      activeDownload.retryCount < MAX_RETRY_ATTEMPTS then
    retryDownload st activeDownload errorMessage
  else if jsIncludes errorMessage "unexpected end of stream" ∨
      jsIncludes errorMessage "network" then
    let st1 := updateDownloadResumeData st activeDownload.downloadId
      (some (serializePauseState activeDownload.resumable.savable))
    let st2 := updateDownloadStatus st1 activeDownload.downloadId DownloadStatus.paused
      (some "Network connection was lost. Tap Resume to continue.")
    (detachActive st2 activeDownload.downloadId, ExecResult.detachedPaused)
  else
    let st1 := updateDownloadStatus st activeDownload.downloadId DownloadStatus.failed
      (some errorMessage)
    (detachActive st1 activeDownload.downloadId, ExecResult.detachedFailed)

/-- Transport completion value (`result` of `resumable.downloadAsync()`):
the HTTP status and resulting file URI. -/
structure DownloadResult where
  status : Nat
  uri : String
deriving DecidableEq

/-- Embeds `executeDownload`.  The awaited `downloadAsync` outcome is the
explicit `outcome` argument: `Except.ok none` models an `undefined`
result, `Except.error` a thrown transport error. -/
def executeDownload (st : SysState) (activeDownload : ActiveDownload)
    (outcome : Except String (Option DownloadResult)) : SysState × ExecResult :=
  let st0 := updateDownloadStatus st activeDownload.downloadId
    DownloadStatus.downloading none
  match outcome with
  | Except.ok (some result) =>
    if result.status = 200 then
      let st1 :=
        match getInfoAsync st0.fs result.uri with
        | some fileInfo =>
          let sa := updateDownloadProgress st0 activeDownload.downloadId fileInfo.size
            (some fileInfo.size)
          updateDownloadResumeData sa activeDownload.downloadId none
        | none => st0
      (updateDownloadStatus st1 activeDownload.downloadId DownloadStatus.completed none,
       ExecResult.completedOk)
    else
      executeDownloadCatch st0 activeDownload
        ("Download failed with server status: " ++ toString result.status)
  | Except.ok none =>
    executeDownloadCatch st0 activeDownload "Download failed with server status: undefined"
  | Except.error msg => executeDownloadCatch st0 activeDownload msg

/-- One iteration of the reconciliation loop inside the service
`initialize` method: mark the record `failed` when its server is gone,
`paused` otherwise. -/
def reconcileStep (s : SysState) (d : DownloadRecord) : SysState :=
  match getServer s d.server_identifier with
  | none => updateDownloadStatus s d.id DownloadStatus.failed
      (some "Server no longer available")
  | some _ => updateDownloadStatus s d.id DownloadStatus.paused none

/-- Embeds the service `initialize` method (the reconciliation routine):
guarded by `hasInitialized`, it sweeps every `downloading` or `pending`
record through `reconcileStep`. -/
def initializeService (st : SysState) : SysState :=
  if st.hasInitialized then st
  else
    let st1 := { st with hasInitialized := true }
    let downloadsToHandle :=
      getDownloadsByStatus st1 [DownloadStatus.downloading, DownloadStatus.pending]
    downloadsToHandle.foldl reconcileStep st1

/-! ## Derived predicates -/

/-- Two download rows describe the same `(mediaKey, serverId)` pair. -/
def samePair (a b : DownloadRecord) : Prop :=
  a.media_rating_key = b.media_rating_key ∧ a.server_identifier = b.server_identifier

/-- The store holds at most one row per `(mediaKey, serverId)` pair — the
uniqueness invariant of the schema (`UNIQUE(media_rating_key,
server_identifier)`). -/
def uniquePairs (l : List DownloadRecord) : Prop :=
  l.Pairwise (fun a b => ¬ samePair a b)

/-! ## Concrete instances used by witnesses and counterexamples -/

/-- Sample completed-transfer destination file. -/
def fileA : FsFile :=
  { dirName := downloadsDirPath, fileName := "a.mp4", size := 10, isDirectory := false }

/-- Sample adapter handle attached to download 1. -/
def adOne : ActiveDownload :=
  { downloadId := 1,
    resumable := { url := "u", fileUri := downloadsDirPath ++ "a.mp4", options := "",
                   resumeData := none },
    retryCount := 0, lastProgressTime := 0, lastProgressBytes := 0 }

/-- Sample download row with id 1, mid-transfer. -/
def recOne : DownloadRecord :=
  { id := 1, media_rating_key := "rk", server_identifier := "srv",
    local_file_path := downloadsDirPath ++ "a.mp4", cached_metadata_json := "m",
    local_thumbnail_path := none, download_status := DownloadStatus.downloading,
    created_at := 0, updated_at := 0, file_size := some 10, downloaded_bytes := 5,
    error_message := none, quality_profile := none, resume_data := some "PS:o:N" }

/-- State with download 1 attached and its destination file on disk. -/
def stC1 : SysState :=
  { downloads := [recOne], servers := [], fs := { files := [fileA], dirs := [downloadsDirPath] },
    activeDownloads := [adOne], nextRowId := 2, now := 100, hasInitialized := true }

/-- Transport success value for download 1. -/
def resC1 : DownloadResult := { status := 200, uri := downloadsDirPath ++ "a.mp4" }

/-- Record for the C10 witness: a completed download with a stale error
message and no attached transfer. -/
def recTen : DownloadRecord :=
  { recOne with
    id := 2, download_status := DownloadStatus.completed,
    error_message := some "old error", resume_data := none }

/-- State for the C10 witness. -/
def stTen : SysState :=
  { downloads := [recTen], servers := [], fs := { files := [], dirs := [] },
    activeDownloads := [], nextRowId := 3, now := 50, hasInitialized := true }

/-- Sample media metadata used by resume witnesses. -/
def mFive : PlexMedia :=
  { ratingKey := "rk", title := "T", mediaType := "movie", grandparentTitle := "",
    parentIndex := 0, index := 0, thumb := none, updatedAt := 3, partId := 4,
    partFile := "/lib/a.mp4" }

/-- Sample server record owning the resume-witness download. -/
def srvFive : ServerRecord :=
  { server_identifier := "srv", name := "n", access_token := "tok",
    base_url := "http://h:32400", owned := 1, last_connected := none,
    cached_metadata_json := none }

/-- Paused record with a corrupt stored checkpoint and a parseable
metadata snapshot. -/
def recFive : DownloadRecord :=
  { recOne with
    download_status := DownloadStatus.paused,
    cached_metadata_json := serializeMedia mFive, resume_data := some "garbage" }

/-- State for the C5 witness: download 1 paused with corrupt checkpoint,
its server present, nothing attached. -/
def stFive : SysState :=
  { downloads := [recFive], servers := [srvFive], fs := { files := [], dirs := [] },
    activeDownloads := [], nextRowId := 2, now := 7, hasInitialized := true }

/-- State for the C6 witness: download 1 present but its server record
is gone. -/
def stSix : SysState :=
  { downloads := [recOne], servers := [], fs := { files := [], dirs := [] },
    activeDownloads := [], nextRowId := 2, now := 9, hasInitialized := true }

/-- Record for the C8 counterexample: stale `updated_at`. -/
def recEight : DownloadRecord := { recOne with updated_at := 5 }

/-- State for the C8 counterexample and witness (`now` far ahead of the
stored `updated_at`). -/
def stEight : SysState :=
  { downloads := [recEight], servers := [], fs := { files := [], dirs := [] },
    activeDownloads := [], nextRowId := 2, now := 99, hasInitialized := true }

/-- Adapter entry with its retry budget exhausted. -/
def adFour : ActiveDownload := { adOne with retryCount := 3 }

/-- State for the C4 counterexample: download 1 attached with
`retryCount = 3`. -/
def stFour : SysState :=
  { downloads := [recOne], servers := [], fs := { files := [], dirs := [] },
    activeDownloads := [adFour], nextRowId := 2, now := 11, hasInitialized := true }

/-- Empty store used by the C2 witness. -/
def stTwo : SysState :=
  { downloads := [], servers := [], fs := { files := [], dirs := [] },
    activeDownloads := [], nextRowId := 1, now := 42, hasInitialized := true }

/-- Interrupted download whose server record is gone (C7 witness). -/
def recSevenA : DownloadRecord :=
  { recOne with
    id := 1, server_identifier := "gone",
    download_status := DownloadStatus.downloading }

/-- Interrupted pending download whose server still exists (C7 witness). -/
def recSevenB : DownloadRecord :=
  { recOne with
    id := 2, server_identifier := "srv", download_status := DownloadStatus.pending }

/-- Freshly restarted state for the C7 witness: two interrupted rows, an
empty in-memory map, reconciliation not yet run. -/
def stSeven : SysState :=
  { downloads := [recSevenA, recSevenB], servers := [srvFive],
    fs := { files := [], dirs := [] }, activeDownloads := [], nextRowId := 3,
    now := 77, hasInitialized := false }

/-- An orphan file on disk: present in the downloads directory but not
referenced by any row (C9 witness). -/
def orphanFile : FsFile :=
  { dirName := downloadsDirPath, fileName := "stray.mp4", size := 123,
    isDirectory := false }

/-- State for the C9 witness: one referenced file and one orphan. -/
def stNine : SysState :=
  { downloads := [recOne], servers := [],
    fs := { files := [fileA, orphanFile], dirs := [downloadsDirPath] },
    activeDownloads := [], nextRowId := 2, now := 5, hasInitialized := true }

/-! ## Helper lemmas about the store embedding -/

theorem jsOrNull_some {s : String} (h : s ≠ "") : jsOrNull (some s) = some s := by
  unfold jsOrNull
  split
  · rename_i heq
    cases heq
    exact absurd rfl h
  · rfl

theorem find_update_same (l : List DownloadRecord) (id : Nat)
    (f : DownloadRecord → DownloadRecord) (hf : ∀ d, (f d).id = d.id) :
    (l.map (fun d => if d.id = id then f d else d)).find? (fun d => d.id == id) =
      (l.find? (fun d => d.id == id)).map f := by
  induction l with
  | nil => rfl
  | cons d t ih =>
    simp only [List.map_cons]
    by_cases h : d.id = id
    · have hb : ((f d).id == id) = true := by simp [hf, h]
      have hb2 : (d.id == id) = true := by simp [h]
      simp only [List.find?, if_pos h, hb, hb2, Option.map_some']
    · have hb : (d.id == id) = false := by simp [h]
      simp only [List.find?, if_neg h, hb, ih]

theorem find_update_ne (l : List DownloadRecord) (id id' : Nat) (hne : id' ≠ id)
    (f : DownloadRecord → DownloadRecord) (hf : ∀ d, (f d).id = d.id) :
    (l.map (fun d => if d.id = id then f d else d)).find? (fun d => d.id == id') =
      l.find? (fun d => d.id == id') := by
  induction l with
  | nil => rfl
  | cons d t ih =>
    simp only [List.map_cons]
    by_cases h : d.id = id
    · have hb : ((f d).id == id') = false := by
        simp [hf, h]
        exact fun hc => hne hc.symm
      have hb2 : (d.id == id') = false := by
        simp [h]
        exact fun hc => hne hc.symm
      simp only [List.find?, if_pos h, hb, hb2, ih]
    · by_cases h2 : d.id = id'
      · have hb : (d.id == id') = true := by simp [h2]
        simp only [List.find?, if_neg h, hb]
      · have hb : (d.id == id') = false := by simp [h2]
        simp only [List.find?, if_neg h, hb, ih]

theorem getDownload_updateWhere_same (st : SysState) (id : Nat)
    (f : DownloadRecord → DownloadRecord) (hf : ∀ d, (f d).id = d.id) :
    getDownload (updateWhere st id f) id = (getDownload st id).map f := by
  simpa [getDownload, updateWhere] using find_update_same st.downloads id f hf

theorem getDownload_updateWhere_ne (st : SysState) (id id' : Nat) (hne : id' ≠ id)
    (f : DownloadRecord → DownloadRecord) (hf : ∀ d, (f d).id = d.id) :
    getDownload (updateWhere st id f) id' = getDownload st id' := by
  simpa [getDownload, updateWhere] using find_update_ne st.downloads id id' hne f hf

theorem find_unique {α : Type} (p : α → Bool) (l : List α) (a : α)
    (ha : a ∈ l) (hp : p a = true) (hu : ∀ b ∈ l, p b = true → b = a) :
    l.find? p = some a := by
  induction l with
  | nil => cases ha
  | cons b t ih =>
    cases hb : p b with
    | true =>
      have hba : b = a := hu b (List.mem_cons_self b t) hb
      simp only [List.find?, hb, hba, hp]
    | false =>
      have hba : b ≠ a := fun h => by rw [h, hp] at hb; cases hb
      have ha' : a ∈ t := by
        rcases List.mem_cons.mp ha with h | h
        · exact absurd h.symm hba
        · exact h
      simp only [List.find?, hb]
      exact ih ha' (fun c hc hpc => hu c (List.mem_cons_of_mem _ hc) hpc)

theorem any_filter_not_id (l : List ActiveDownload) (id : Nat) :
    (l.filter (fun a => ¬ (a.downloadId = id))).any (fun a => a.downloadId == id) = false := by
  induction l with
  | nil => rfl
  | cons a t ih =>
    by_cases h : a.downloadId = id
    · simpa [List.filter_cons, h] using ih
    · simpa [List.filter_cons, h] using ih

theorem activeHas_detach (st : SysState) (id : Nat) :
    activeHas (detachActive st id) id = false := by
  simpa [activeHas, detachActive] using any_filter_not_id st.activeDownloads id

theorem updateDownloadStatus_fs (st : SysState) (id : Nat) (s : DownloadStatus)
    (e : Option String) : (updateDownloadStatus st id s e).fs = st.fs := rfl

theorem updateDownloadStatus_activeDownloads (st : SysState) (id : Nat)
    (s : DownloadStatus) (e : Option String) :
    (updateDownloadStatus st id s e).activeDownloads = st.activeDownloads := rfl

theorem updateDownloadStatus_now (st : SysState) (id : Nat) (s : DownloadStatus)
    (e : Option String) : (updateDownloadStatus st id s e).now = st.now := rfl

theorem updateDownloadStatus_servers (st : SysState) (id : Nat) (s : DownloadStatus)
    (e : Option String) : (updateDownloadStatus st id s e).servers = st.servers := rfl

theorem updateDownloadProgress_fs (st : SysState) (id b : Nat) (t : Option Nat) :
    (updateDownloadProgress st id b t).fs = st.fs := by cases t <;> rfl

theorem updateDownloadProgress_activeDownloads (st : SysState) (id b : Nat)
    (t : Option Nat) :
    (updateDownloadProgress st id b t).activeDownloads = st.activeDownloads := by
  cases t <;> rfl

theorem updateDownloadProgress_now (st : SysState) (id b : Nat) (t : Option Nat) :
    (updateDownloadProgress st id b t).now = st.now := by cases t <;> rfl

theorem updateDownloadResumeData_fs (st : SysState) (id : Nat) (rd : Option String) :
    (updateDownloadResumeData st id rd).fs = st.fs := rfl

theorem updateDownloadResumeData_activeDownloads (st : SysState) (id : Nat)
    (rd : Option String) :
    (updateDownloadResumeData st id rd).activeDownloads = st.activeDownloads := rfl

theorem updateDownloadResumeData_now (st : SysState) (id : Nat) (rd : Option String) :
    (updateDownloadResumeData st id rd).now = st.now := rfl

theorem getDownload_updateDownloadStatus (st : SysState) (id : Nat) (s : DownloadStatus)
    (e : Option String) :
    getDownload (updateDownloadStatus st id s e) id =
      (getDownload st id).map (fun d =>
        { d with download_status := s, error_message := jsOrNull e,
                 updated_at := st.now }) :=
  getDownload_updateWhere_same st id _ (fun _ => rfl)

theorem getDownload_updateDownloadResumeData (st : SysState) (id : Nat)
    (rd : Option String) :
    getDownload (updateDownloadResumeData st id rd) id =
      (getDownload st id).map (fun d => { d with resume_data := rd }) :=
  getDownload_updateWhere_same st id _ (fun _ => rfl)

theorem getDownload_updateDownloadThumbnail (st : SysState) (id : Nat) (p : String) :
    getDownload (updateDownloadThumbnail st id p) id =
      (getDownload st id).map (fun d => { d with local_thumbnail_path := some p }) :=
  getDownload_updateWhere_same st id _ (fun _ => rfl)

theorem getDownload_updateDownloadProgress_some (st : SysState) (id b t : Nat) :
    getDownload (updateDownloadProgress st id b (some t)) id =
      (getDownload st id).map (fun d =>
        { d with downloaded_bytes := b, file_size := some t, updated_at := st.now }) :=
  getDownload_updateWhere_same st id _ (fun _ => rfl)

theorem getDownload_updateDownloadProgress_none (st : SysState) (id b : Nat) :
    getDownload (updateDownloadProgress st id b none) id =
      (getDownload st id).map (fun d =>
        { d with downloaded_bytes := b, updated_at := st.now }) :=
  getDownload_updateWhere_same st id _ (fun _ => rfl)

/-! ## C1: completion bookkeeping of the execution loop -/

/-- C1 (amended).  On a transport-reported 200 outcome the execution loop
checks whether the file at the reported URI exists; when it does, it
stamps `downloaded_bytes = file_size` (both to the on-disk size) and
clears `resume_data`; in either case it sets the status to `completed`
with no error message.  Contrary to the original claim, the download id
is NOT removed from the in-memory active-downloads map on success (the
map is left unchanged), and the bookkeeping writes are skipped when the
destination file is missing. -/
theorem executeDownload_success_bookkeeping (st : SysState) (ad : ActiveDownload)
    (result : DownloadResult) (d : DownloadRecord)
    (hstatus : result.status = 200)
    (hd : getDownload st ad.downloadId = some d) :
    (executeDownload st ad (Except.ok (some result))).2 = ExecResult.completedOk ∧
    (executeDownload st ad (Except.ok (some result))).1.activeDownloads =
      st.activeDownloads ∧
    ∃ d', getDownload (executeDownload st ad (Except.ok (some result))).1 ad.downloadId =
        some d' ∧
      d'.download_status = DownloadStatus.completed ∧
      d'.error_message = none ∧
      (∀ fileInfo, getInfoAsync st.fs result.uri = some fileInfo →
        d'.downloaded_bytes = fileInfo.size ∧ d'.file_size = some fileInfo.size ∧
        d'.resume_data = none) ∧
      (getInfoAsync st.fs result.uri = none →
        d'.downloaded_bytes = d.downloaded_bytes ∧ d'.file_size = d.file_size ∧
        d'.resume_data = d.resume_data) := by
  simp only [executeDownload, updateDownloadStatus_fs]
  rw [if_pos hstatus]
  cases hinfo : getInfoAsync st.fs result.uri with
  | some fi =>
    refine ⟨rfl, ?_, ?_⟩
    · simp only [updateDownloadStatus_activeDownloads, updateDownloadResumeData_activeDownloads,
        updateDownloadProgress_activeDownloads]
    · rw [getDownload_updateDownloadStatus, getDownload_updateDownloadResumeData,
        getDownload_updateDownloadProgress_some, getDownload_updateDownloadStatus, hd]
      refine ⟨_, rfl, rfl, rfl, ?_, ?_⟩
      · intro fi' hfi'
        cases hfi'
        exact ⟨rfl, rfl, rfl⟩
      · intro hnone
        exact Option.noConfusion hnone
  | none =>
    refine ⟨rfl, ?_, ?_⟩
    · simp only [updateDownloadStatus_activeDownloads]
    · rw [getDownload_updateDownloadStatus, getDownload_updateDownloadStatus, hd]
      refine ⟨_, rfl, rfl, rfl, ?_, ?_⟩
      · intro fi' hfi'
        exact Option.noConfusion hfi'
      · intro _
        exact ⟨rfl, rfl, rfl⟩

/-- C1 witness: the amended theorem applied to the concrete state
`stC1`. -/
theorem executeDownload_success_bookkeeping_witness :
    resC1.status = 200 ∧ getDownload stC1 adOne.downloadId = some recOne ∧
    (executeDownload stC1 adOne (Except.ok (some resC1))).1.activeDownloads =
      stC1.activeDownloads :=
  ⟨by decide, by decide,
    (executeDownload_success_bookkeeping stC1 adOne resC1 recOne (by decide)
      (by decide)).2.1⟩

/-- C1 counterexample: after a 200-success run of the execution loop on
`stC1`, the record is `completed` yet download id 1 is still present in
the in-memory active-downloads map — the claimed detach does not
happen. -/
theorem executeDownload_success_no_detach_cex :
    (executeDownload stC1 adOne (Except.ok (some resC1))).2 = ExecResult.completedOk ∧
    (getDownload (executeDownload stC1 adOne (Except.ok (some resC1))).1 1).map
      (fun d => d.download_status) = some DownloadStatus.completed ∧
    (executeDownload stC1 adOne (Except.ok (some resC1))).1.activeDownloads = [adOne] := by
  decide

/-! ## C3 and C10: pauseDownload behavior -/

theorem find_filter_not_id (l : List ActiveDownload) (id : Nat) :
    (l.filter (fun a => ¬ (a.downloadId = id))).find? (fun a => a.downloadId == id) =
      none := by
  rw [List.find?_eq_none]
  intro a ha
  have h2 := (List.mem_filter.mp ha).2
  simp only [decide_not, Bool.not_eq_true', decide_eq_false_iff_not] at h2
  simpa using h2

theorem getDownload_detach (st : SysState) (id id' : Nat) :
    getDownload (detachActive st id') id = getDownload st id := rfl

theorem pauseDownload_not_attached (st : SysState) (id : Nat)
    (o : Except String PauseState)
    (h : st.activeDownloads.find? (fun a => a.downloadId == id) = none) :
    pauseDownload st id o = updateDownloadStatus st id DownloadStatus.paused none := by
  simp only [pauseDownload, h]

theorem pauseDownload_attached_ok (st : SysState) (id : Nat) (a0 : ActiveDownload)
    (ps : PauseState)
    (h : st.activeDownloads.find? (fun a => a.downloadId == id) = some a0) :
    pauseDownload st id (Except.ok ps) =
      updateDownloadStatus
        (updateDownloadResumeData (detachActive st id) id
          (some (serializePauseState ps))) id DownloadStatus.paused none := by
  simp only [pauseDownload, h]

theorem pauseDownload_attached_error (st : SysState) (id : Nat) (a0 : ActiveDownload)
    (e : String)
    (h : st.activeDownloads.find? (fun a => a.downloadId == id) = some a0) :
    pauseDownload st id (Except.error e) =
      updateDownloadStatus st id DownloadStatus.failed (some "Failed to pause") := by
  simp only [pauseDownload, h]

theorem detachActive_downloads (st : SysState) (id : Nat) :
    (detachActive st id).downloads = st.downloads := rfl

/-- C3 (amended).  `pauseDownload` never throws (the embedding is total:
every adapter error is caught).  Calling it twice leaves the record
`paused` after each call whenever no live transfer is attached, or when
one is attached and the adapter pause succeeds.  Contrary to the original
claim, if a live transfer is attached and the adapter pause itself fails,
the record is marked `failed` with message "Failed to pause" (and the
entry stays in the in-memory map) instead of `paused`. -/
theorem pauseDownload_idempotent_amended (st : SysState) (id : Nat) (d : DownloadRecord)
    (hd : getDownload st id = some d) :
    (st.activeDownloads.find? (fun a => a.downloadId == id) = none →
      ∀ o1 o2 : Except String PauseState,
        (∃ d1, getDownload (pauseDownload st id o1) id = some d1 ∧
          d1.download_status = DownloadStatus.paused) ∧
        (∃ d2, getDownload (pauseDownload (pauseDownload st id o1) id o2) id = some d2 ∧
          d2.download_status = DownloadStatus.paused)) ∧
    (∀ a0, st.activeDownloads.find? (fun a => a.downloadId == id) = some a0 →
      (∀ ps : PauseState, ∀ o2 : Except String PauseState,
        (∃ d1, getDownload (pauseDownload st id (Except.ok ps)) id = some d1 ∧
          d1.download_status = DownloadStatus.paused) ∧
        (∃ d2, getDownload (pauseDownload (pauseDownload st id (Except.ok ps)) id o2) id =
            some d2 ∧ d2.download_status = DownloadStatus.paused)) ∧
      (∀ e : String,
        (∃ d1, getDownload (pauseDownload st id (Except.error e)) id = some d1 ∧
          d1.download_status = DownloadStatus.failed ∧
          d1.error_message = some "Failed to pause") ∧
        (pauseDownload st id (Except.error e)).activeDownloads = st.activeDownloads)) := by
  constructor
  · intro h o1 o2
    have h1 := pauseDownload_not_attached st id o1 h
    have hfind1 : (pauseDownload st id o1).activeDownloads.find?
        (fun a => a.downloadId == id) = none := by
      rw [h1, updateDownloadStatus_activeDownloads]
      exact h
    have h2 := pauseDownload_not_attached (pauseDownload st id o1) id o2 hfind1
    constructor
    · rw [h1, getDownload_updateDownloadStatus, hd]
      exact ⟨_, rfl, rfl⟩
    · rw [h2, getDownload_updateDownloadStatus, h1, getDownload_updateDownloadStatus, hd]
      exact ⟨_, rfl, rfl⟩
  · intro a0 h
    constructor
    · intro ps o2
      have h1 := pauseDownload_attached_ok st id a0 ps h
      have hfind1 : (pauseDownload st id (Except.ok ps)).activeDownloads.find?
          (fun a => a.downloadId == id) = none := by
        rw [h1, updateDownloadStatus_activeDownloads,
          updateDownloadResumeData_activeDownloads]
        exact find_filter_not_id st.activeDownloads id
      have h2 := pauseDownload_not_attached (pauseDownload st id (Except.ok ps)) id o2 hfind1
      constructor
      · rw [h1, getDownload_updateDownloadStatus, getDownload_updateDownloadResumeData,
          getDownload_detach, hd]
        exact ⟨_, rfl, rfl⟩
      · rw [h2, getDownload_updateDownloadStatus, h1, getDownload_updateDownloadStatus,
          getDownload_updateDownloadResumeData, getDownload_detach, hd]
        exact ⟨_, rfl, rfl⟩
    · intro e
      have h1 := pauseDownload_attached_error st id a0 e h
      constructor
      · rw [h1, getDownload_updateDownloadStatus, hd]
        exact ⟨_, rfl, rfl, @jsOrNull_some "Failed to pause" (by decide)⟩
      · rw [h1, updateDownloadStatus_activeDownloads]

/-- C3 witness: the amended theorem applied at `stC1` (download 1
attached) with a successful adapter pause. -/
theorem pauseDownload_idempotent_amended_witness :
    getDownload stC1 1 = some recOne ∧
    (∃ d1, getDownload
        (pauseDownload stC1 1 (Except.ok { options := "o", resumeData := none })) 1 =
        some d1 ∧ d1.download_status = DownloadStatus.paused) :=
  ⟨by decide,
    (((pauseDownload_idempotent_amended stC1 1 recOne (by decide)).2 adOne (by decide)).1
      { options := "o", resumeData := none }
      (Except.ok { options := "o", resumeData := none })).1⟩

/-- C3 counterexample: with download 1 attached in `stC1`, an adapter
pause failure makes `pauseDownload` mark the record `failed`, refuting
the claim that the record is left `paused` in every case. -/
theorem pauseDownload_adapter_failure_cex :
    (getDownload (pauseDownload stC1 1 (Except.error "adapter crashed")) 1).map
      (fun d => d.download_status) = some DownloadStatus.failed ∧
    DownloadStatus.failed ≠ DownloadStatus.paused := by
  decide

/-- C10 (confirmed).  With no live transfer attached, `pauseDownload`
unconditionally overwrites the record with status `paused`, erases the
error message and stamps `updated_at`, regardless of the record's
current (possibly terminal) status. -/
theorem pauseDownload_unconditional_overwrite (st : SysState) (id : Nat)
    (d : DownloadRecord) (o : Except String PauseState)
    (hactive : st.activeDownloads.find? (fun a => a.downloadId == id) = none)
    (hd : getDownload st id = some d) :
    getDownload (pauseDownload st id o) id =
      some { d with download_status := DownloadStatus.paused, error_message := none,
                    updated_at := st.now } := by
  simp only [pauseDownload, hactive]
  rw [getDownload_updateDownloadStatus, hd]
  rfl

/-- C10 witness: a `completed` record with an error message is overwritten
to `paused` with the message erased. -/
theorem pauseDownload_unconditional_overwrite_witness :
    (stTen.activeDownloads.find? (fun a => a.downloadId == 2) = none ∧
      getDownload stTen 2 = some recTen) ∧
    getDownload (pauseDownload stTen 2 (Except.error "ignored")) 2 =
      some { recTen with
             download_status := DownloadStatus.paused, error_message := none,
             updated_at := stTen.now } :=
  ⟨⟨by decide, by decide⟩,
    pauseDownload_unconditional_overwrite stTen 2 recTen (Except.error "ignored")
      (by decide) (by decide)⟩

/-! ## C5 and C6: resumeDownload -/

/-- C5 (confirmed).  When the stored checkpoint blob is present but not
parseable, `resumeDownload` does not surface a parse error: it succeeds,
leaves the store untouched, and attaches a fresh begin-semantics adapter
handle (no resume token, empty options) for the record's own destination
path. -/
theorem resumeDownload_corrupt_checkpoint_recovers (st : SysState) (id : Nat)
    (d : DownloadRecord) (srv : ServerRecord) (m : PlexMedia) (rd : String)
    (hactive : activeHas st id = false)
    (hd : getDownload st id = some d)
    (hnc : d.download_status ≠ DownloadStatus.completed)
    (hs : getServer st d.server_identifier = some srv)
    (hm : parseMedia d.cached_metadata_json = some m)
    (hrd : d.resume_data = some rd)
    (hcorrupt : parsePauseState rd = none) :
    (resumeDownload st id).1 = Except.ok () ∧
    (resumeDownload st id).2.downloads = st.downloads ∧
    ∃ ad : ActiveDownload,
      (resumeDownload st id).2.activeDownloads = st.activeDownloads ++ [ad] ∧
      ad.downloadId = id ∧
      ad.resumable.fileUri = d.local_file_path ∧
      ad.resumable.resumeData = none ∧
      ad.resumable.options = "" := by
  simp only [resumeDownload, hactive, Bool.false_eq_true, if_false, hd, hnc, hs, hm, hrd,
    hcorrupt, createResumableForDownload, getDownloadUrlForMedia, Option.map_some']
  refine ⟨by trivial, by trivial, ?_⟩
  exact ⟨_, by trivial, by trivial, by trivial, by trivial, by trivial⟩

/-- C5 witness: the theorem applied at `stFive`, whose record stores the
unparseable checkpoint blob "garbage". -/
theorem resumeDownload_corrupt_checkpoint_recovers_witness :
    (parseMedia recFive.cached_metadata_json = some mFive ∧
      parsePauseState "garbage" = none) ∧
    (resumeDownload stFive 1).1 = Except.ok () ∧
    (∃ ad : ActiveDownload,
      (resumeDownload stFive 1).2.activeDownloads = stFive.activeDownloads ++ [ad] ∧
      ad.downloadId = 1 ∧
      ad.resumable.fileUri = recFive.local_file_path ∧
      ad.resumable.resumeData = none ∧
      ad.resumable.options = "") :=
  ⟨⟨by decide, by decide⟩,
    (resumeDownload_corrupt_checkpoint_recovers stFive 1 recFive srvFive mFive "garbage"
      (by decide) (by decide) (by decide) (by decide) (by decide) (by decide)
      (by decide)).1,
    (resumeDownload_corrupt_checkpoint_recovers stFive 1 recFive srvFive mFive "garbage"
      (by decide) (by decide) (by decide) (by decide) (by decide) (by decide)
      (by decide)).2.2⟩

/-- C6 (confirmed).  The guards of `resumeDownload`: an already-attached
id is a no-op; a missing or completed record returns silently with no
state change; a missing server record marks the download `failed` with
"Server no longer available" and raises an error, without attaching. -/
theorem resumeDownload_guards (st : SysState) (id : Nat) :
    (activeHas st id = true → resumeDownload st id = (Except.ok (), st)) ∧
    (activeHas st id = false → getDownload st id = none →
      resumeDownload st id = (Except.ok (), st)) ∧
    (∀ d, activeHas st id = false → getDownload st id = some d →
      d.download_status = DownloadStatus.completed →
      resumeDownload st id = (Except.ok (), st)) ∧
    (∀ d, activeHas st id = false → getDownload st id = some d →
      d.download_status ≠ DownloadStatus.completed →
      getServer st d.server_identifier = none →
      (resumeDownload st id).1 =
        Except.error ("Server " ++ d.server_identifier ++ " not found for download.") ∧
      (∃ d', getDownload (resumeDownload st id).2 id = some d' ∧
        d'.download_status = DownloadStatus.failed ∧
        d'.error_message = some "Server no longer available") ∧
      (resumeDownload st id).2.activeDownloads = st.activeDownloads) := by
  refine ⟨?_, ?_, ?_, ?_⟩
  · intro h
    simp only [resumeDownload, h, if_true]
  · intro h hnone
    simp only [resumeDownload, h, Bool.false_eq_true, if_false, hnone]
  · intro d h hd hc
    simp only [resumeDownload, h, Bool.false_eq_true, if_false, hd, hc, if_true]
  · intro d h hd hc hs
    simp only [resumeDownload, h, Bool.false_eq_true, if_false, hd, hc, hs]
    refine ⟨by trivial, ?_, by trivial⟩
    rw [getDownload_updateDownloadStatus, hd]
    exact ⟨_, rfl, rfl, @jsOrNull_some "Server no longer available" (by decide)⟩

/-- C6 witness: guard (iii) applied at `stSix`, whose server table is
empty. -/
theorem resumeDownload_guards_witness :
    (activeHas stSix 1 = false ∧ getDownload stSix 1 = some recOne ∧
      getServer stSix recOne.server_identifier = none) ∧
    (resumeDownload stSix 1).1 =
      Except.error ("Server " ++ recOne.server_identifier ++ " not found for download.") ∧
    (∃ d', getDownload (resumeDownload stSix 1).2 1 = some d' ∧
      d'.download_status = DownloadStatus.failed ∧
      d'.error_message = some "Server no longer available") :=
  ⟨⟨by decide, by decide, by decide⟩,
    ((resumeDownload_guards stSix 1).2.2.2 recOne (by decide) (by decide) (by decide)
      (by decide)).1,
    ((resumeDownload_guards stSix 1).2.2.2 recOne (by decide) (by decide) (by decide)
      (by decide)).2.1⟩

/-! ## C8: updated_at stamping of store writes -/

/-- C8 (amended).  Status updates and progress updates stamp
`updated_at = now`; contrary to the original claim, the thumbnail-path
and checkpoint (`resume_data`) updates leave `updated_at` unchanged —
their SQL statements do not touch the column. -/
theorem store_writes_updatedAt (st : SysState) (id : Nat) (d : DownloadRecord)
    (hd : getDownload st id = some d) :
    (∀ status em, ∃ d', getDownload (updateDownloadStatus st id status em) id = some d' ∧
      d'.updated_at = st.now) ∧
    (∀ bytes total, ∃ d',
      getDownload (updateDownloadProgress st id bytes total) id = some d' ∧
      d'.updated_at = st.now) ∧
    (∀ p, ∃ d', getDownload (updateDownloadThumbnail st id p) id = some d' ∧
      d'.updated_at = d.updated_at) ∧
    (∀ rd, ∃ d', getDownload (updateDownloadResumeData st id rd) id = some d' ∧
      d'.updated_at = d.updated_at) := by
  refine ⟨?_, ?_, ?_, ?_⟩
  · intro status em
    rw [getDownload_updateDownloadStatus, hd]
    exact ⟨_, rfl, rfl⟩
  · intro bytes total
    cases total with
    | some t =>
      rw [getDownload_updateDownloadProgress_some, hd]
      exact ⟨_, rfl, rfl⟩
    | none =>
      rw [getDownload_updateDownloadProgress_none, hd]
      exact ⟨_, rfl, rfl⟩
  · intro p
    rw [getDownload_updateDownloadThumbnail, hd]
    exact ⟨_, rfl, rfl⟩
  · intro rd
    rw [getDownload_updateDownloadResumeData, hd]
    exact ⟨_, rfl, rfl⟩

/-- C8 witness: the amended theorem applied at `stEight`. -/
theorem store_writes_updatedAt_witness :
    getDownload stEight 1 = some recEight ∧
    (∃ d', getDownload (updateDownloadStatus stEight 1 DownloadStatus.paused none) 1 =
      some d' ∧ d'.updated_at = stEight.now) :=
  ⟨by decide,
    (store_writes_updatedAt stEight 1 recEight (by decide)).1 DownloadStatus.paused none⟩

/-- C8 counterexample: the checkpoint and thumbnail writes leave the
stale `updated_at = 5` in place although the clock reads 99. -/
theorem updateDownloadResumeData_updatedAt_cex :
    stEight.now = 99 ∧
    (getDownload (updateDownloadResumeData stEight 1 (some "ckpt")) 1).map
      (fun d => d.updated_at) = some 5 ∧
    (getDownload (updateDownloadThumbnail stEight 1 "t.jpg") 1).map
      (fun d => d.updated_at) = some 5 ∧ (5 : Nat) ≠ 99 := by
  decide

/-! ## C4: retry policy of the execution loop -/

theorem append_left_ne_empty (p m : String) (hp : p ≠ "") : p ++ m ≠ "" := by
  intro h
  apply hp
  have hd : (p ++ m).data = ([] : List Char) := by rw [h]
  rw [String.data_append] at hd
  rcases List.append_eq_nil.mp hd with ⟨h1, _⟩
  cases p
  cases h1
  rfl

theorem activeHas_updateDownloadStatus (st : SysState) (id' id : Nat)
    (sx : DownloadStatus) (e : Option String) :
    activeHas (updateDownloadStatus st id' sx e) id = activeHas st id := rfl

theorem activeHas_updateDownloadResumeData (st : SysState) (id' id : Nat)
    (rd : Option String) :
    activeHas (updateDownloadResumeData st id' rd) id = activeHas st id := rfl

theorem executeDownload_error_eq (st : SysState) (ad : ActiveDownload) (msg : String) :
    executeDownload st ad (Except.error msg) =
      executeDownloadCatch
        (updateDownloadStatus st ad.downloadId DownloadStatus.downloading none) ad
        msg := rfl

theorem executeDownloadCatch_retry (st : SysState) (ad : ActiveDownload) (msg : String)
    (h1 : activeHas st ad.downloadId = true)
    (h2 : shouldRetryDownload msg = true)
    (h3 : ad.retryCount < MAX_RETRY_ATTEMPTS) :
    executeDownloadCatch st ad msg = retryDownload st ad msg := by
  simp only [executeDownloadCatch, h1, h2, h3, not_true, if_false, and_self, if_true,
    Bool.true_eq_false, not_false_iff]

theorem executeDownloadCatch_pause (st : SysState) (ad : ActiveDownload) (msg : String)
    (h1 : activeHas st ad.downloadId = true)
    (h2 : ¬ (shouldRetryDownload msg = true ∧ ad.retryCount < MAX_RETRY_ATTEMPTS))
    (h3 : jsIncludes msg "unexpected end of stream" = true ∨
      jsIncludes msg "network" = true) :
    executeDownloadCatch st ad msg =
      (detachActive
        (updateDownloadStatus
          (updateDownloadResumeData st ad.downloadId
            (some (serializePauseState ad.resumable.savable)))
          ad.downloadId DownloadStatus.paused
          (some "Network connection was lost. Tap Resume to continue."))
        ad.downloadId,
       ExecResult.detachedPaused) := by
  simp only [executeDownloadCatch, h1, not_true, if_false, Bool.true_eq_false,
    not_false_iff]
  rw [if_neg h2, if_pos h3]

theorem executeDownloadCatch_failed (st : SysState) (ad : ActiveDownload) (msg : String)
    (h1 : activeHas st ad.downloadId = true)
    (h2 : ¬ (shouldRetryDownload msg = true ∧ ad.retryCount < MAX_RETRY_ATTEMPTS))
    (h3 : ¬ (jsIncludes msg "unexpected end of stream" = true ∨
      jsIncludes msg "network" = true)) :
    executeDownloadCatch st ad msg =
      (detachActive
        (updateDownloadStatus st ad.downloadId DownloadStatus.failed (some msg))
        ad.downloadId,
       ExecResult.detachedFailed) := by
  simp only [executeDownloadCatch, h1, not_true, if_false, Bool.true_eq_false,
    not_false_iff]
  rw [if_neg h2, if_neg h3]

theorem activeHas_retryMap (l : List ActiveDownload) (id x n : Nat) :
    ((l.map (fun a => if a.downloadId = x then { a with retryCount := n } else a)).any
      (fun a => a.downloadId == id)) = l.any (fun a => a.downloadId == id) := by
  induction l with
  | nil => rfl
  | cons a t ih =>
    by_cases h : a.downloadId = x <;> simp [List.any_cons, h, ih]

theorem retryDownload_snd (st : SysState) (ad : ActiveDownload) (msg : String) :
    (retryDownload st ad msg).2 =
      ExecResult.retryScheduled ad.downloadId
        (RETRY_DELAY_BASE_MS * 2 ^ (ad.retryCount + 1 - 1)) := rfl

theorem getDownload_retryDownload (st : SysState) (ad : ActiveDownload) (msg : String)
    (id : Nat) :
    getDownload (retryDownload st ad msg).1 id =
      getDownload
        (updateDownloadStatus st ad.downloadId DownloadStatus.paused
          (some ("Retrying after error: " ++ msg))) id := rfl

theorem retryDownload_activeDownloads (st : SysState) (ad : ActiveDownload)
    (msg : String) :
    (retryDownload st ad msg).1.activeDownloads =
      st.activeDownloads.map (fun a =>
        if a.downloadId = ad.downloadId then { a with retryCount := ad.retryCount + 1 }
        else a) := rfl

/-- C4 (amended).  A transient error (matching the retry signature list)
below the 3-attempt cap schedules a retry after
`RETRY_DELAY_BASE_MS * 2 ^ (attempt - 1)` milliseconds (2 s, 4 s, 8 s),
marking the record `paused` with a retrying message and bumping the
attached entry's retry counter.  Contrary to the original claim, when the
cap is exhausted the download degrades to `paused` only when the message
contains "unexpected end of stream" or the case-sensitive substring
"network"; any other message — including "timeout", connection-reset and
connection-refused signatures — is marked `failed` and detached. -/
theorem executeDownload_retry_policy (st : SysState) (ad : ActiveDownload) (msg : String)
    (d : DownloadRecord)
    (hactive : activeHas st ad.downloadId = true)
    (hd : getDownload st ad.downloadId = some d)
    (hmsg : msg ≠ "") :
    (shouldRetryDownload msg = true → ad.retryCount < MAX_RETRY_ATTEMPTS →
      (executeDownload st ad (Except.error msg)).2 =
        ExecResult.retryScheduled ad.downloadId
          (RETRY_DELAY_BASE_MS * 2 ^ (ad.retryCount + 1 - 1)) ∧
      (∃ d', getDownload (executeDownload st ad (Except.error msg)).1 ad.downloadId =
          some d' ∧
        d'.download_status = DownloadStatus.paused ∧
        d'.error_message = some ("Retrying after error: " ++ msg)) ∧
      activeHas (executeDownload st ad (Except.error msg)).1 ad.downloadId = true ∧
      (∀ a ∈ (executeDownload st ad (Except.error msg)).1.activeDownloads,
        a.downloadId = ad.downloadId → a.retryCount = ad.retryCount + 1)) ∧
    (¬ (shouldRetryDownload msg = true ∧ ad.retryCount < MAX_RETRY_ATTEMPTS) →
      ((jsIncludes msg "unexpected end of stream" = true ∨
          jsIncludes msg "network" = true) →
        (executeDownload st ad (Except.error msg)).2 = ExecResult.detachedPaused ∧
        (∃ d', getDownload (executeDownload st ad (Except.error msg)).1 ad.downloadId =
            some d' ∧
          d'.download_status = DownloadStatus.paused ∧
          d'.error_message = some "Network connection was lost. Tap Resume to continue." ∧
          d'.resume_data = some (serializePauseState ad.resumable.savable)) ∧
        activeHas (executeDownload st ad (Except.error msg)).1 ad.downloadId = false) ∧
      (¬ (jsIncludes msg "unexpected end of stream" = true ∨
          jsIncludes msg "network" = true) →
        (executeDownload st ad (Except.error msg)).2 = ExecResult.detachedFailed ∧
        (∃ d', getDownload (executeDownload st ad (Except.error msg)).1 ad.downloadId =
            some d' ∧
          d'.download_status = DownloadStatus.failed ∧
          d'.error_message = some msg) ∧
        activeHas (executeDownload st ad (Except.error msg)).1 ad.downloadId = false)) := by
  have hact0 : activeHas
      (updateDownloadStatus st ad.downloadId DownloadStatus.downloading none)
      ad.downloadId = true := by
    rw [activeHas_updateDownloadStatus]
    exact hactive
  constructor
  · intro hr hc
    rw [executeDownload_error_eq, executeDownloadCatch_retry _ _ _ hact0 hr hc]
    refine ⟨retryDownload_snd _ _ _, ?_, ?_, ?_⟩
    · rw [getDownload_retryDownload, getDownload_updateDownloadStatus,
        getDownload_updateDownloadStatus, hd]
      exact ⟨_, rfl, rfl,
        @jsOrNull_some ("Retrying after error: " ++ msg)
          (append_left_ne_empty "Retrying after error: " msg (by decide))⟩
    · show ((retryDownload _ ad msg).1.activeDownloads.any
        (fun a => a.downloadId == ad.downloadId)) = true
      rw [retryDownload_activeDownloads, activeHas_retryMap]
      exact hactive
    · intro a ha hid
      rw [retryDownload_activeDownloads] at ha
      rcases List.mem_map.mp ha with ⟨a0, _, rfl⟩
      by_cases h : a0.downloadId = ad.downloadId
      · simp only [h, if_true]
      · rw [if_neg h] at hid ⊢
        exact absurd hid h
  · intro hno
    constructor
    · intro hp
      rw [executeDownload_error_eq, executeDownloadCatch_pause _ _ _ hact0 hno hp]
      refine ⟨rfl, ?_, ?_⟩
      · show ∃ d', getDownload (detachActive _ ad.downloadId) ad.downloadId = some d' ∧ _
        rw [getDownload_detach, getDownload_updateDownloadStatus,
          getDownload_updateDownloadResumeData, getDownload_updateDownloadStatus, hd]
        exact ⟨_, rfl, rfl,
          @jsOrNull_some "Network connection was lost. Tap Resume to continue."
            (by decide), rfl⟩
      · exact activeHas_detach _ ad.downloadId
    · intro hnp
      rw [executeDownload_error_eq, executeDownloadCatch_failed _ _ _ hact0 hno hnp]
      refine ⟨rfl, ?_, ?_⟩
      · show ∃ d', getDownload (detachActive _ ad.downloadId) ad.downloadId = some d' ∧ _
        rw [getDownload_detach, getDownload_updateDownloadStatus,
          getDownload_updateDownloadStatus, hd]
        exact ⟨_, rfl, rfl, @jsOrNull_some msg hmsg⟩
      · exact activeHas_detach _ ad.downloadId

/-- C4 witness: a first "timeout" failure of attached download 1 in
`stC1` schedules a retry after the base delay of 2000 ms with the record
paused and the retry counter at 1. -/
theorem executeDownload_retry_policy_witness :
    (activeHas stC1 1 = true ∧ getDownload stC1 1 = some recOne ∧
      shouldRetryDownload "timeout" = true ∧ adOne.retryCount < MAX_RETRY_ATTEMPTS) ∧
    (executeDownload stC1 adOne (Except.error "timeout")).2 =
      ExecResult.retryScheduled adOne.downloadId
        (RETRY_DELAY_BASE_MS * 2 ^ (adOne.retryCount + 1 - 1)) :=
  ⟨⟨by decide, by decide, by decide, by decide⟩,
    ((executeDownload_retry_policy stC1 adOne "timeout" recOne (by decide) (by decide)
      (by decide)).1 (by decide) (by decide)).1⟩

/-- C4 counterexample: download 1 attached with its retry budget
exhausted (`retryCount = 3`) fails with "timeout" — a retryable
signature — yet the record degrades to `failed` and is detached, not to
`paused` as the claim states. -/
theorem executeDownload_retry_exhaustion_cex :
    shouldRetryDownload "timeout" = true ∧ adFour.retryCount = MAX_RETRY_ATTEMPTS ∧
    (executeDownload stFour adFour (Except.error "timeout")).2 =
      ExecResult.detachedFailed ∧
    (getDownload (executeDownload stFour adFour (Except.error "timeout")).1 1).map
      (fun d => d.download_status) = some DownloadStatus.failed ∧
    DownloadStatus.failed ≠ DownloadStatus.paused := by
  decide

/-! ## C2: startDownload uniqueness -/

theorem ensureDirectoryExists_frames (st : SysState) (name : String) :
    (ensureDirectoryExists st name).downloads = st.downloads ∧
    (ensureDirectoryExists st name).nextRowId = st.nextRowId ∧
    (ensureDirectoryExists st name).now = st.now ∧
    (ensureDirectoryExists st name).fs.files = st.fs.files ∧
    (ensureDirectoryExists st name).servers = st.servers ∧
    (ensureDirectoryExists st name).activeDownloads = st.activeDownloads := by
  by_cases h : st.fs.dirs.contains (documentDirectory ++ name ++ "/") = true <;>
    simp only [ensureDirectoryExists, h, if_true, if_false] <;>
    exact ⟨by trivial, by trivial, by trivial, by trivial, by trivial, by trivial⟩

theorem deleteDownload_frames (st : SysState) (id : Nat) :
    (deleteDownload st id).nextRowId = st.nextRowId ∧
    (deleteDownload st id).now = st.now ∧
    (deleteDownload st id).servers = st.servers ∧
    (deleteDownload st id).activeDownloads = st.activeDownloads ∧
    (deleteDownload st id).downloads = st.downloads.filter (fun d => ¬ (d.id = id)) := by
  unfold deleteDownload
  cases h : getDownload st id with
  | none => exact ⟨rfl, rfl, rfl, rfl, rfl⟩
  | some download => exact ⟨rfl, rfl, rfl, rfl, rfl⟩

theorem deleteDownload_fs_files (st : SysState) (ex : DownloadRecord)
    (h : getDownload st ex.id = some ex) :
    ∀ f ∈ (deleteDownload st ex.id).fs.files,
      f.dirName ++ f.fileName ≠ ex.local_file_path := by
  cases hthumb : ex.local_thumbnail_path with
  | none =>
    intro f hf
    simp only [deleteDownload, h, hthumb, deleteFsUri] at hf
    exact of_decide_eq_true (List.mem_filter.mp hf).2
  | some t =>
    intro f hf
    simp only [deleteDownload, h, hthumb, deleteFsUri] at hf
    exact of_decide_eq_true (List.mem_filter.mp ((List.mem_filter.mp hf).1)).2

theorem startDownloadCreate_spec (st : SysState) (sid : String) (media : PlexMedia) :
    ∃ newRec : DownloadRecord,
      (startDownloadCreate st sid media).1 = Except.ok newRec.id ∧
      (startDownloadCreate st sid media).2.downloads = st.downloads ++ [newRec] ∧
      newRec.download_status = DownloadStatus.pending ∧
      newRec.media_rating_key = media.ratingKey ∧
      newRec.server_identifier = sid ∧
      newRec.resume_data = none ∧
      (startDownloadCreate st sid media).2.fs.files = st.fs.files ∧
      (startDownloadCreate st sid media).2.servers = st.servers := by
  obtain ⟨e1, e2, e3, e4, e5, e6⟩ := ensureDirectoryExists_frames st "downloads"
  refine ⟨{ id := st.nextRowId, media_rating_key := media.ratingKey,
            server_identifier := sid,
            local_file_path :=
              documentDirectory ++ "downloads/" ++ generateFileName media st.now,
            cached_metadata_json := serializeMedia media, local_thumbnail_path := none,
            download_status := DownloadStatus.pending, created_at := st.now,
            updated_at := st.now, file_size := none, downloaded_bytes := 0,
            error_message := none, quality_profile := none, resume_data := none },
    ?_, ?_, rfl, rfl, rfl, rfl, ?_, ?_⟩
  · simp only [startDownloadCreate, addDownload, e2]
  · simp only [startDownloadCreate, addDownload, e1, e2, e3]
  · simp only [startDownloadCreate, addDownload, e4]
  · simp only [startDownloadCreate, addDownload, e5]

/-- C2 (confirmed).  `startDownload` on a pair with an existing non-failed
record throws "already queued" and leaves the store untouched; on an
existing failed record it deletes that record (cascading to its backing
file) and creates a fresh `pending` record for the pair; on no existing
record it creates a fresh `pending` record; and it preserves the
at-most-one-record-per-pair invariant. -/
theorem startDownload_uniqueness (st : SysState) (sid : String) (media : PlexMedia)
    (hnodup : (st.downloads.map (fun d => d.id)).Nodup) :
    (∀ ex, getDownloadByMediaKey st media.ratingKey sid = some ex →
      ex.download_status ≠ DownloadStatus.failed →
      startDownload st sid media =
        (Except.error "This item is already in the queue.", st)) ∧
    (∀ ex, getDownloadByMediaKey st media.ratingKey sid = some ex →
      ex.download_status = DownloadStatus.failed →
      ∃ newRec : DownloadRecord,
        (startDownload st sid media).1 = Except.ok newRec.id ∧
        (startDownload st sid media).2.downloads =
          st.downloads.filter (fun d => ¬ (d.id = ex.id)) ++ [newRec] ∧
        newRec.download_status = DownloadStatus.pending ∧
        newRec.media_rating_key = media.ratingKey ∧
        newRec.server_identifier = sid ∧
        (∀ f ∈ (startDownload st sid media).2.fs.files,
          f.dirName ++ f.fileName ≠ ex.local_file_path)) ∧
    (getDownloadByMediaKey st media.ratingKey sid = none →
      ∃ newRec : DownloadRecord,
        (startDownload st sid media).1 = Except.ok newRec.id ∧
        (startDownload st sid media).2.downloads = st.downloads ++ [newRec] ∧
        newRec.download_status = DownloadStatus.pending ∧
        newRec.media_rating_key = media.ratingKey ∧
        newRec.server_identifier = sid) ∧
    (uniquePairs st.downloads → uniquePairs (startDownload st sid media).2.downloads) := by
  have hsym : Symmetric (fun a b : DownloadRecord => ¬ samePair a b) := by
    intro x y h hxy
    exact h ⟨hxy.1.symm, hxy.2.symm⟩
  refine ⟨?_, ?_, ?_, ?_⟩
  · intro ex hex hne
    simp only [startDownload, hex]
    rw [if_neg hne]
  · intro ex hex hfail
    have hst : startDownload st sid media =
        startDownloadCreate (cancelAndDeleteDownload st ex.id) sid media := by
      simp only [startDownload, hex]
      rw [if_pos hfail]
    have hexmem : ex ∈ st.downloads := List.mem_of_find?_eq_some hex
    have hgd : getDownload st ex.id = some ex := by
      apply find_unique _ _ ex hexmem (by simp)
      intro b hb hpb
      exact List.inj_on_of_nodup_map hnodup hb hexmem (by simpa using hpb)
    obtain ⟨nr, h1, h2, h3, h4, h5, h6, h7, h8⟩ :=
      startDownloadCreate_spec (cancelAndDeleteDownload st ex.id) sid media
    have hdownloads : (cancelAndDeleteDownload st ex.id).downloads =
        st.downloads.filter (fun d => ¬ (d.id = ex.id)) :=
      (deleteDownload_frames (detachActive st ex.id) ex.id).2.2.2.2
    refine ⟨nr, ?_, ?_, h3, h4, h5, ?_⟩
    · rw [hst]
      exact h1
    · rw [hst, h2, hdownloads]
    · rw [hst]
      intro f hf
      rw [h7] at hf
      exact deleteDownload_fs_files (detachActive st ex.id) ex
        (by rw [getDownload_detach]; exact hgd) f hf
  · intro hnone
    obtain ⟨nr, h1, h2, h3, h4, h5, h6, h7, h8⟩ := startDownloadCreate_spec st sid media
    have hst : startDownload st sid media = startDownloadCreate st sid media := by
      simp only [startDownload, hnone]
    exact ⟨nr, by rw [hst]; exact h1, by rw [hst]; exact h2, h3, h4, h5⟩
  · intro hU
    cases hfind : getDownloadByMediaKey st media.ratingKey sid with
    | none =>
      obtain ⟨nr, h1, h2, h3, h4, h5, h6, h7, h8⟩ := startDownloadCreate_spec st sid media
      have hst : startDownload st sid media = startDownloadCreate st sid media := by
        simp only [startDownload, hfind]
      rw [hst, uniquePairs] at *
      rw [h2, List.pairwise_append]
      refine ⟨hU, List.pairwise_singleton _ _, ?_⟩
      intro a ha b hb
      rw [List.mem_singleton] at hb
      subst hb
      intro hsp
      apply List.find?_eq_none.mp hfind a ha
      obtain ⟨hk, hs⟩ := hsp
      rw [h4] at hk
      rw [h5] at hs
      simp [hk, hs]
    | some ex =>
      by_cases hfail : ex.download_status = DownloadStatus.failed
      · have hst : startDownload st sid media =
            startDownloadCreate (cancelAndDeleteDownload st ex.id) sid media := by
          simp only [startDownload, hfind]
          rw [if_pos hfail]
        obtain ⟨nr, h1, h2, h3, h4, h5, h6, h7, h8⟩ :=
          startDownloadCreate_spec (cancelAndDeleteDownload st ex.id) sid media
        have hdownloads : (cancelAndDeleteDownload st ex.id).downloads =
            st.downloads.filter (fun d => ¬ (d.id = ex.id)) :=
          (deleteDownload_frames (detachActive st ex.id) ex.id).2.2.2.2
        rw [hst, uniquePairs, h2, hdownloads, List.pairwise_append]
        refine ⟨List.Pairwise.sublist (List.filter_sublist _) hU,
          List.pairwise_singleton _ _, ?_⟩
        intro a ha b hb
        rw [List.mem_singleton] at hb
        subst hb
        intro hsp
        have hmem := List.mem_filter.mp ha
        have haid : ¬ (a.id = ex.id) := of_decide_eq_true hmem.2
        have hane : a ≠ ex := fun h => haid (by rw [h])
        have hexmem : ex ∈ st.downloads := List.mem_of_find?_eq_some hfind
        have hexpred := List.find?_some hfind
        have hexk : ex.media_rating_key = media.ratingKey ∧ ex.server_identifier = sid := by
          simpa [Bool.and_eq_true] using hexpred
        have hpw := List.Pairwise.forall hsym hU hmem.1 hexmem hane
        apply hpw
        obtain ⟨hk, hs⟩ := hsp
        refine ⟨?_, ?_⟩
        · rw [hk, h4, hexk.1]
        · rw [hs, h5, hexk.2]
      · have hst : startDownload st sid media =
            (Except.error "This item is already in the queue.", st) := by
          simp only [startDownload, hfind]
          rw [if_neg hfail]
        rw [hst]
        exact hU

/-- C2 witness: the theorem applied at the empty store `stTwo` (no
existing record branch). -/
theorem startDownload_uniqueness_witness :
    ((stTwo.downloads.map (fun d => d.id)).Nodup ∧
      getDownloadByMediaKey stTwo mFive.ratingKey "srv" = none) ∧
    (∃ newRec : DownloadRecord,
      (startDownload stTwo "srv" mFive).1 = Except.ok newRec.id ∧
      (startDownload stTwo "srv" mFive).2.downloads = stTwo.downloads ++ [newRec] ∧
      newRec.download_status = DownloadStatus.pending ∧
      newRec.media_rating_key = mFive.ratingKey ∧
      newRec.server_identifier = "srv") :=
  ⟨⟨by decide, by decide⟩,
    (startDownload_uniqueness stTwo "srv" mFive (by decide)).2.2.1 (by decide)⟩

/-! ## C7: reconciliation on startup -/

theorem reconcileStep_servers (s : SysState) (d : DownloadRecord) :
    (reconcileStep s d).servers = s.servers := by
  cases h : getServer s d.server_identifier <;>
    simp only [reconcileStep, h, updateDownloadStatus_servers]

theorem reconcileStep_activeDownloads (s : SysState) (d : DownloadRecord) :
    (reconcileStep s d).activeDownloads = s.activeDownloads := by
  cases h : getServer s d.server_identifier <;>
    simp only [reconcileStep, h, updateDownloadStatus_activeDownloads]

theorem foldl_reconcile_servers (l : List DownloadRecord) (s : SysState) :
    (l.foldl reconcileStep s).servers = s.servers := by
  induction l generalizing s with
  | nil => rfl
  | cons d t ih => rw [List.foldl_cons, ih, reconcileStep_servers]

theorem foldl_reconcile_active (l : List DownloadRecord) (s : SysState) :
    (l.foldl reconcileStep s).activeDownloads = s.activeDownloads := by
  induction l generalizing s with
  | nil => rfl
  | cons d t ih => rw [List.foldl_cons, ih, reconcileStep_activeDownloads]

theorem getDownload_updateDownloadStatus_ne (st : SysState) (id id' : Nat)
    (hne : id' ≠ id) (sx : DownloadStatus) (e : Option String) :
    getDownload (updateDownloadStatus st id sx e) id' = getDownload st id' :=
  getDownload_updateWhere_ne st id id' hne _ (fun _ => rfl)

theorem getDownload_reconcileStep_ne (s : SysState) (d : DownloadRecord) (id : Nat)
    (h : ¬ d.id = id) :
    getDownload (reconcileStep s d) id = getDownload s id := by
  cases hs : getServer s d.server_identifier <;>
    simp only [reconcileStep, hs] <;>
    exact getDownload_updateDownloadStatus_ne s d.id id (fun hc => h hc.symm) _ _

theorem foldl_reconcile_getDownload_notmem (l : List DownloadRecord) (s : SysState)
    (id : Nat) (h : ∀ e ∈ l, ¬ e.id = id) :
    getDownload (l.foldl reconcileStep s) id = getDownload s id := by
  induction l generalizing s with
  | nil => rfl
  | cons d t ih =>
    rw [List.foldl_cons, ih _ (fun e he => h e (List.mem_cons_of_mem _ he)),
      getDownload_reconcileStep_ne s d id (h d (List.mem_cons_self d t))]

theorem foldl_reconcile_getDownload_hit (d : DownloadRecord) (l : List DownloadRecord)
    (s : SysState) (hrest : ∀ e ∈ l, ¬ e.id = d.id) :
    getDownload ((d :: l).foldl reconcileStep s) d.id =
      (getDownload s d.id).map (fun r =>
        match getServer s d.server_identifier with
        | none => { r with download_status := DownloadStatus.failed,
                           error_message := some "Server no longer available",
                           updated_at := s.now }
        | some _ => { r with download_status := DownloadStatus.paused,
                             error_message := none, updated_at := s.now }) := by
  rw [List.foldl_cons, foldl_reconcile_getDownload_notmem l _ d.id hrest]
  cases hs : getServer s d.server_identifier with
  | none =>
    simp only [reconcileStep, hs, getDownload_updateDownloadStatus]
    rw [@jsOrNull_some "Server no longer available" (by decide)]
  | some srv =>
    simp only [reconcileStep, hs, getDownload_updateDownloadStatus]
    rfl

/-- C7 (confirmed).  Running the reconciliation routine on a fresh state
(empty in-memory map, not yet initialized) leaves the map empty (no
auto-resume), and every record that was `downloading` or `pending` ends
`failed` with "Server no longer available" when its server record is
absent, `paused` otherwise — never still `downloading`. -/
theorem initializeService_reconciliation (st : SysState)
    (hinit : st.hasInitialized = false)
    (hnodup : (st.downloads.map (fun d => d.id)).Nodup)
    (hempty : st.activeDownloads = []) :
    (initializeService st).activeDownloads = [] ∧
    ∀ d ∈ st.downloads,
      (d.download_status = DownloadStatus.downloading ∨
        d.download_status = DownloadStatus.pending) →
      ∃ d', getDownload (initializeService st) d.id = some d' ∧
        ((getServer st d.server_identifier = none ∧
           d'.download_status = DownloadStatus.failed ∧
           d'.error_message = some "Server no longer available") ∨
         ((∃ srv, getServer st d.server_identifier = some srv) ∧
           d'.download_status = DownloadStatus.paused)) ∧
        d'.download_status ≠ DownloadStatus.downloading := by
  have hsvc : initializeService st =
      (getDownloadsByStatus { st with hasInitialized := true }
        [DownloadStatus.downloading, DownloadStatus.pending]).foldl reconcileStep
        { st with hasInitialized := true } := by
    simp only [initializeService, hinit, Bool.false_eq_true, if_false]
  constructor
  · rw [hsvc, foldl_reconcile_active]
    exact hempty
  · intro d hd hstat
    have hdp : d ∈ getDownloadsByStatus { st with hasInitialized := true }
        [DownloadStatus.downloading, DownloadStatus.pending] := by
      simp only [getDownloadsByStatus, List.mem_filter]
      refine ⟨hd, ?_⟩
      rcases hstat with h | h <;> simp [h]
    obtain ⟨a, b, htoh⟩ := List.append_of_mem hdp
    have hfilnodup : ((getDownloadsByStatus { st with hasInitialized := true }
        [DownloadStatus.downloading, DownloadStatus.pending]).map
          (fun d => d.id)).Nodup := by
      apply List.Nodup.sublist _ hnodup
      exact List.Sublist.map _ (List.filter_sublist _)
    rw [htoh, List.map_append, List.map_cons] at hfilnodup
    rw [List.nodup_append] at hfilnodup
    obtain ⟨hnda, hndb, hdisj⟩ := hfilnodup
    have hdnb : ∀ e ∈ b, ¬ e.id = d.id := by
      intro e he heq
      have : d.id ∈ b.map (fun d => d.id) := by
        rw [← heq]
        exact List.mem_map_of_mem _ he
      exact (List.nodup_cons.mp hndb).1 this
    have hdna : ∀ e ∈ a, ¬ e.id = d.id := by
      intro e he heq
      have h1 : d.id ∈ a.map (fun d => d.id) := by
        rw [← heq]
        exact List.mem_map_of_mem _ he
      exact hdisj h1 (List.mem_cons_self _ _)
    have hgd1 : getDownload { st with hasInitialized := true } d.id = some d := by
      apply find_unique _ _ d hd (by simp)
      intro b2 hb2 hpb
      exact List.inj_on_of_nodup_map hnodup hb2 hd (by simpa using hpb)
    have hgd2 : getDownload (a.foldl reconcileStep { st with hasInitialized := true })
        d.id = some d := by
      rw [foldl_reconcile_getDownload_notmem a _ d.id hdna]
      exact hgd1
    have hserver2 : getServer (a.foldl reconcileStep { st with hasInitialized := true })
        d.server_identifier = getServer st d.server_identifier := by
      unfold getServer
      rw [foldl_reconcile_servers]
    rw [hsvc, htoh, List.foldl_append,
      foldl_reconcile_getDownload_hit d b _ hdnb, hgd2, hserver2]
    cases hs : getServer st d.server_identifier with
    | none =>
      exact ⟨_, rfl, Or.inl ⟨rfl, rfl, rfl⟩, fun h => DownloadStatus.noConfusion h⟩
    | some srv =>
      exact ⟨_, rfl, Or.inr ⟨⟨srv, rfl⟩, rfl⟩, fun h => DownloadStatus.noConfusion h⟩

/-- C7 witness: the theorem applied at `stSeven`; its record 1
(`downloading`, server gone) ends `failed` with the server message. -/
theorem initializeService_reconciliation_witness :
    (stSeven.hasInitialized = false ∧ stSeven.activeDownloads = [] ∧
      recSevenA ∈ stSeven.downloads ∧
      recSevenA.download_status = DownloadStatus.downloading) ∧
    (initializeService stSeven).activeDownloads = [] ∧
    (∃ d', getDownload (initializeService stSeven) recSevenA.id = some d' ∧
      ((getServer stSeven recSevenA.server_identifier = none ∧
         d'.download_status = DownloadStatus.failed ∧
         d'.error_message = some "Server no longer available") ∨
       ((∃ srv, getServer stSeven recSevenA.server_identifier = some srv) ∧
         d'.download_status = DownloadStatus.paused)) ∧
      d'.download_status ≠ DownloadStatus.downloading) :=
  ⟨⟨by decide, by decide, by decide, by decide⟩,
    (initializeService_reconciliation stSeven (by decide) (by decide) (by decide)).1,
    (initializeService_reconciliation stSeven (by decide) (by decide) (by decide)).2
      recSevenA (by decide) (Or.inl (by decide))⟩

/-! ## C9: orphan detection -/

theorem getInfoAsync_self (fs : Fs) (e : FsFile) (he : e ∈ fs.files)
    (hU : (fs.files.map (fun f => f.dirName ++ f.fileName)).Nodup) :
    getInfoAsync fs (e.dirName ++ e.fileName) = some e := by
  apply find_unique _ _ e he (by simp)
  intro b hb hpb
  exact List.inj_on_of_nodup_map hU hb he (by simpa using hpb)

/-- C9 (confirmed).  `findOrphanedFiles` mutates nothing (the state comes
back unchanged — the embedded function only performs reads), and its
result contains exactly the non-directory entries of the downloads
directory whose URI is not the `local_file_path` of any store row, each
reported with its on-disk size. -/
theorem findOrphanedFiles_orphans (st : SysState)
    (hU : (st.fs.files.map (fun f => f.dirName ++ f.fileName)).Nodup) :
    (findOrphanedFiles st).2 = st ∧
    ∀ o : OrphanedFile, o ∈ (findOrphanedFiles st).1 ↔
      ∃ e ∈ st.fs.files, e.dirName = downloadsDirPath ∧ e.isDirectory = false ∧
        o.uri = downloadsDirPath ++ e.fileName ∧ o.size = e.size ∧
        ∀ d ∈ st.downloads, d.local_file_path ≠ o.uri := by
  refine ⟨rfl, ?_⟩
  intro o
  constructor
  · intro ho
    simp only [findOrphanedFiles] at ho
    rw [List.mem_filterMap] at ho
    obtain ⟨fileName, hmem, hg⟩ := ho
    simp only [readDirectoryAsync, List.mem_map] at hmem
    obtain ⟨e, hef, rfl⟩ := hmem
    have hedir : e.dirName = downloadsDirPath := by
      simpa using (List.mem_filter.mp hef).2
    have hemem : e ∈ st.fs.files := (List.mem_filter.mp hef).1
    by_cases hknown : (((getAllDownloads st).map (fun d => d.local_file_path)).contains
        (downloadsDirPath ++ e.fileName)) = true
    · rw [if_pos hknown] at hg
      exact Option.noConfusion hg
    · rw [if_neg hknown] at hg
      have hinfo : getInfoAsync st.fs (downloadsDirPath ++ e.fileName) = some e := by
        rw [← hedir]
        exact getInfoAsync_self st.fs e hemem hU
      simp only [hinfo] at hg
      by_cases hdir : e.isDirectory = true
      · rw [if_neg (not_not_intro hdir)] at hg
        exact Option.noConfusion hg
      · rw [if_pos hdir] at hg
        cases hg
        refine ⟨e, hemem, hedir, by simpa using hdir, rfl, rfl, ?_⟩
        intro d hd heq
        apply hknown
        have heq2 : d.local_file_path = downloadsDirPath ++ e.fileName := heq
        have hm : (downloadsDirPath ++ e.fileName) ∈
            (getAllDownloads st).map (fun d => d.local_file_path) := by
          rw [← heq2]
          exact List.mem_map_of_mem _ hd
        exact List.elem_iff.mpr hm
  · intro hex
    obtain ⟨e, hemem, hedir, hndir, huri, hsize, hnotref⟩ := hex
    simp only [findOrphanedFiles]
    rw [List.mem_filterMap]
    refine ⟨e.fileName, ?_, ?_⟩
    · simp only [readDirectoryAsync, List.mem_map]
      exact ⟨e, List.mem_filter.mpr ⟨hemem, by simp [hedir]⟩, rfl⟩
    · have hknown : ¬ ((((getAllDownloads st).map (fun d => d.local_file_path)).contains
          (downloadsDirPath ++ e.fileName)) = true) := by
        intro hc
        obtain ⟨d, hd, hld⟩ := List.mem_map.mp (List.elem_iff.mp hc)
        exact hnotref d hd (by rw [hld, ← huri])
      rw [if_neg hknown]
      have hinfo : getInfoAsync st.fs (downloadsDirPath ++ e.fileName) = some e := by
        rw [← hedir]
        exact getInfoAsync_self st.fs e hemem hU
      simp only [hinfo]
      rw [if_pos (by simp [hndir])]
      cases o with
      | mk ouri osize =>
        simp only at huri hsize
        rw [huri, hsize]

/-- C9 witness: on `stNine` (one referenced file, one stray file) the
theorem applies; the stray file satisfies the orphan characterization. -/
theorem findOrphanedFiles_orphans_witness :
    ((stNine.fs.files.map (fun f => f.dirName ++ f.fileName)).Nodup) ∧
    (findOrphanedFiles stNine).2 = stNine ∧
    (({ uri := downloadsDirPath ++ "stray.mp4", size := 123 } : OrphanedFile) ∈
        (findOrphanedFiles stNine).1 ↔
      ∃ e ∈ stNine.fs.files, e.dirName = downloadsDirPath ∧ e.isDirectory = false ∧
        ({ uri := downloadsDirPath ++ "stray.mp4", size := 123 } : OrphanedFile).uri =
          downloadsDirPath ++ e.fileName ∧
        ({ uri := downloadsDirPath ++ "stray.mp4", size := 123 } : OrphanedFile).size =
          e.size ∧
        ∀ d ∈ stNine.downloads, d.local_file_path ≠
          ({ uri := downloadsDirPath ++ "stray.mp4", size := 123 } : OrphanedFile).uri) :=
  ⟨by decide,
    (findOrphanedFiles_orphans stNine (by decide)).1,
    (findOrphanedFiles_orphans stNine (by decide)).2
      { uri := downloadsDirPath ++ "stray.mp4", size := 123 }⟩

end PlexDownloader
